import Mathlib

/-!
Verification of the lec-sim tournament simulator (src/lec_sim).

The Python source is shallowly embedded: Python dicts become association
lists (first-match lookup, replace-first update), Python floats become
rationals, exceptions become Except, and the seeded pseudo-random source
random.Random is modelled as an arbitrary stream of naturals with a cursor.
All definitions are executable.
-/

namespace LecSim

/-- Association-list lookup, first match (models Python dict lookup). -/
def getA {κ ν : Type} [DecidableEq κ] : List (κ × ν) → κ → Option ν
  | [], _ => none
  | (k, v) :: t, k' => if k = k' then some v else getA t k'

/-- Association-list insert-or-replace-first (models Python dict assignment). -/
def setA {κ ν : Type} [DecidableEq κ] : List (κ × ν) → κ → ν → List (κ × ν)
  | [], k, v => [(k, v)]
  | (k0, v0) :: t, k, v => if k0 = k then (k, v) :: t else (k0, v0) :: setA t k v

theorem getA_setA_self {κ ν : Type} [DecidableEq κ] (l : List (κ × ν)) (k : κ) (v : ν) :
    getA (setA l k v) k = some v := by
  induction l with
  | nil => simp [getA, setA]
  | cons p t ih =>
    by_cases h : p.1 = k
    · simp [setA, h, getA]
    · simp [setA, h, getA, ih]

theorem getA_setA_ne {κ ν : Type} [DecidableEq κ] (l : List (κ × ν)) (k k' : κ) (v : ν)
    (h : k ≠ k') : getA (setA l k v) k' = getA l k' := by
  induction l with
  | nil => simp [getA, setA, h]
  | cons p t ih =>
    by_cases hp : p.1 = k
    · simp [setA, hp, getA, h]
    · simp [setA, hp, getA, ih]

/-- Values of an association list after an update: the new value or an old one. -/
theorem mem_values_setA {κ ν : Type} [DecidableEq κ] (l : List (κ × ν)) (k : κ) (v x : ν)
    (hx : x ∈ (setA l k v).map Prod.snd) : x = v ∨ x ∈ l.map Prod.snd := by
  induction l with
  | nil => simp [setA] at hx; simp [hx]
  | cons p t ih =>
    by_cases hp : p.1 = k
    · simp [setA, hp] at hx
      rcases hx with h | h
      · exact Or.inl h
      · exact Or.inr (by simp [h])
    · simp [setA, hp] at hx
      rcases hx with h | h
      · exact Or.inr (by simp [h])
      · rcases ih (by simpa using h) with h' | h'
        · exact Or.inl h'
        · exact Or.inr (by simp [h'])

/-- A successful lookup yields one of the values. -/
theorem getA_mem_values {κ ν : Type} [DecidableEq κ] (l : List (κ × ν)) (k : κ) (v : ν)
    (h : getA l k = some v) : v ∈ l.map Prod.snd := by
  induction l with
  | nil => simp [getA] at h
  | cons p t ih =>
    by_cases hp : p.1 = k
    · simp [getA, hp] at h
      simp [← h]
    · simp only [getA, hp, if_neg hp, ite_false] at h
      simp [ih h]

/-! ## Random source model -/

/-- Model of a seeded pseudo-random source (Python random.Random): an arbitrary
stream of naturals together with a cursor into the stream. -/
structure Rng where
  stream : Nat → Nat
  idx : Nat

/-- Draw one raw value and advance the cursor. -/
def Rng.next (r : Rng) : Nat × Rng := (r.stream r.idx, ⟨r.stream, r.idx + 1⟩)

/-- A linear congruential step, the concrete stream used for seeded sources. -/
def lcg (x : Nat) : Nat := (x * 1103515245 + 12345) % 2147483648

/-- Model of random.Random(seed): a concrete deterministic stream derived from
the seed. -/
def mkRandom (seed : Nat) : Rng := ⟨fun i => Nat.iterate lcg (i + 1) seed, 0⟩

/-- Model of random.random(): a rational in [0, 1). -/
def Rng.random (r : Rng) : ℚ × Rng :=
  let (v, r') := r.next
  (mkRat (v % 1000000 : Nat) 1000000, r')

/-- Model of random.randint(0, n) (bounds inclusive). -/
def Rng.randint (r : Rng) (n : Nat) : Nat × Rng :=
  let (v, r') := r.next
  (v % (n + 1), r')

/-- Model of the draw of an index below n used by random.shuffle. -/
def Rng.randbelow (r : Rng) (n : Nat) : Nat × Rng :=
  let (v, r') := r.next
  (v % n, r')

theorem Rng.random_nonneg (r : Rng) : 0 ≤ (r.random).1 := by
  unfold Rng.random Rng.next
  simp only []
  rw [Rat.mkRat_eq_div]
  positivity

theorem Rng.random_lt_one (r : Rng) : (r.random).1 < 1 := by
  unfold Rng.random Rng.next
  simp only []
  rw [Rat.mkRat_eq_div, div_lt_one (by norm_num)]
  have h : (r.stream r.idx) % 1000000 < 1000000 := Nat.mod_lt _ (by norm_num)
  exact_mod_cast h

/-- Swap two positions of a list (one step of Fisher-Yates). -/
def swapAt {α : Type} (l : List α) (i j : Nat) : List α :=
  match l[i]?, l[j]? with
  | some a, some b => (l.set i b).set j a
  | _, _ => l

/-- The descending loop of random.shuffle: the argument is the current swap
index; at index i+1 a target below i+2 is drawn and the two cells swapped. -/
def shuffleAux {α : Type} : Nat → List α → Rng → List α × Rng
  | 0, l, r => (l, r)
  | i + 1, l, r =>
    let (j, r') := r.randbelow (i + 2)
    shuffleAux i (swapAt l (i + 1) j) r'

/-- Model of random.shuffle (Fisher-Yates, indices from len-1 down to 1),
returning the shuffled list. -/
def Rng.shuffle {α : Type} (r : Rng) (l : List α) : List α × Rng :=
  shuffleAux (l.length - 1) l r

theorem cons_set_perm {α : Type} :
    ∀ (t : List α) (m : Nat) (a b : α), t[m]? = some b → List.Perm (b :: t.set m a) (a :: t) := by
  intro t
  induction t with
  | nil => intro m a b h; simp at h
  | cons y u ih =>
    intro m a b h
    cases m with
    | zero =>
      simp at h
      subst h
      exact List.Perm.swap _ _ _
    | succ m' =>
      simp at h
      show List.Perm (b :: y :: u.set m' a) (a :: y :: u)
      have h1 : List.Perm (b :: y :: u.set m' a) (y :: b :: u.set m' a) :=
        List.Perm.swap _ _ _
      have h2 : List.Perm (y :: b :: u.set m' a) (y :: a :: u) :=
        List.Perm.cons _ (ih m' a b h)
      have h3 : List.Perm (y :: a :: u) (a :: y :: u) := List.Perm.swap _ _ _
      exact (h1.trans h2).trans h3

theorem set_set_perm {α : Type} :
    ∀ (l : List α) (i j : Nat) (a b : α), l[i]? = some a → l[j]? = some b →
      List.Perm ((l.set i b).set j a) l := by
  intro l
  induction l with
  | nil => intro i j a b hi; simp at hi
  | cons x t ih =>
    intro i j a b hi hj
    cases i with
    | zero =>
      simp at hi
      subst hi
      cases j with
      | zero => simp at hj; subst hj; simp
      | succ m =>
        simp at hj
        show List.Perm (b :: t.set m x) (x :: t)
        exact cons_set_perm t m x b hj
    | succ k =>
      simp at hi
      cases j with
      | zero =>
        simp at hj
        subst hj
        show List.Perm (a :: t.set k x) (x :: t)
        exact cons_set_perm t k x a hi
      | succ m =>
        simp at hj
        show List.Perm (x :: (t.set k b).set m a) (x :: t)
        exact List.Perm.cons _ (ih k m a b hi hj)

theorem swapAt_perm {α : Type} (l : List α) (i j : Nat) : List.Perm (swapAt l i j) l := by
  unfold swapAt
  cases hi : l[i]? with
  | none => exact List.Perm.refl l
  | some a =>
    cases hj : l[j]? with
    | none => exact List.Perm.refl l
    | some b => exact set_set_perm l i j a b hi hj

theorem shuffleAux_perm {α : Type} :
    ∀ (n : Nat) (l : List α) (r : Rng), List.Perm ((shuffleAux n l r).1) l := by
  intro n
  induction n with
  | zero => intro l r; exact List.Perm.refl l
  | succ i ih =>
    intro l r
    unfold shuffleAux
    exact (ih _ _).trans (swapAt_perm l (i + 1) _)

theorem shuffle_perm {α : Type} (r : Rng) (l : List α) : List.Perm ((r.shuffle l).1) l :=
  shuffleAux_perm _ l r

/-! ## Entity model (models/team.py, models/match.py) -/

/-- A team (models/team.py). Python compares and hashes teams by id only, so
all embedded comparisons between teams are on the id field. -/
structure Team where
  name : String
  short_name : String
  id : Nat
  is_erl : Bool := false
deriving DecidableEq, Repr

/-- Match format best-of-N (models/match.py). -/
inductive MatchFormat
  | BO1
  | BO3
  | BO5
deriving DecidableEq, Repr

/-- Games needed to win the series: (N + 1) / 2. -/
def MatchFormat.games_to_win : MatchFormat → Nat
  | .BO1 => 1
  | .BO3 => 2
  | .BO5 => 3

/-- Result of a completed match (models/match.py). -/
structure MatchResult where
  winner : Team
  loser : Team
  winner_score : Nat
  loser_score : Nat
deriving DecidableEq, Repr

/-- A scheduled or completed match (models/match.py). The uuid id and the
week/match_day scheduling metadata are omitted: nothing in the verified core
reads them. -/
structure Match where
  team_a : Team
  team_b : Team
  format : MatchFormat := .BO1
  stage : String := "round_robin"
  result : Option MatchResult := none
deriving DecidableEq, Repr

def Match.is_completed (m : Match) : Bool := m.result.isSome

/-! ## Round-robin generator (tournament/round_robin.py) -/

/-- itertools.combinations(l, 2): every unordered pair, the earlier element
first. -/
def combinations2 {α : Type} : List α → List (α × α)
  | [] => []
  | t :: rest => rest.map (fun u => (t, u)) ++ combinations2 rest

/-- generate_round_robin_schedule: one unplayed match per unordered pair. -/
def generate_round_robin_schedule (teams : List Team)
    (format : MatchFormat := .BO1) : List Match :=
  (combinations2 teams).map (fun p =>
    { team_a := p.1, team_b := p.2, format := format, stage := "round_robin" })

/-- A match between the unordered pair of teams a and b (team comparison on
ids, as in Python). -/
def pairMatches (a b : Team) (m : Match) : Bool :=
  (m.team_a.id = a.id && m.team_b.id = b.id) || (m.team_a.id = b.id && m.team_b.id = a.id)

theorem combinations2_length {α : Type} :
    ∀ (l : List α), 2 * (combinations2 l).length = l.length * (l.length - 1) := by
  intro l
  induction l with
  | nil => simp [combinations2]
  | cons t rest ih =>
    simp only [combinations2, List.length_append, List.length_map, List.length_cons]
    have h2 : 2 * (rest.length + (combinations2 rest).length)
        = 2 * rest.length + 2 * (combinations2 rest).length := by ring
    rw [h2, ih]
    cases hr : rest.length with
    | zero => simp
    | succ s =>
      simp only [Nat.succ_sub_one]
      ring

theorem mem_combinations2 {α : Type} :
    ∀ (l : List α) (p : α × α), p ∈ combinations2 l → p.1 ∈ l ∧ p.2 ∈ l := by
  intro l
  induction l with
  | nil => intro p hp; simp [combinations2] at hp
  | cons t rest ih =>
    intro p hp
    simp only [combinations2, List.mem_append, List.mem_map] at hp
    rcases hp with ⟨u, hu, rfl⟩ | hp
    · exact ⟨by simp, by simp [hu]⟩
    · have := ih p hp
      exact ⟨by simp [this.1], by simp [this.2]⟩

theorem countP_id_eq (l : List Team) (b : Team) (hnd : (l.map Team.id).Nodup)
    (hb : b ∈ l) : l.countP (fun u => u.id = b.id) = 1 := by
  induction l with
  | nil => simp at hb
  | cons u rest ih =>
    simp only [List.map_cons, List.nodup_cons, List.mem_map] at hnd
    rcases List.mem_cons.mp hb with rfl | hbr
    · rw [List.countP_cons_of_pos _ _ (by simp)]
      have hz : rest.countP (fun x => x.id = b.id) = 0 := by
        rw [List.countP_eq_zero]
        intro x hx
        simp only [decide_eq_true_eq]
        intro hxe
        exact hnd.1 ⟨x, hx, hxe⟩
      omega
    · have hne : u.id ≠ b.id := by
        intro he
        exact hnd.1 ⟨b, hbr, he.symm⟩
      rw [List.countP_cons_of_neg _ _ (by simp [hne])]
      exact ih hnd.2 hbr

theorem countP_pair_combinations2 (l : List Team) (a b : Team)
    (hnd : (l.map Team.id).Nodup) (ha : a ∈ l) (hb : b ∈ l) (hab : a.id ≠ b.id) :
    (combinations2 l).countP
      (fun p => (p.1.id = a.id && p.2.id = b.id) || (p.1.id = b.id && p.2.id = a.id)) = 1 := by
  induction l with
  | nil => simp at ha
  | cons t rest ih =>
    simp only [List.map_cons, List.nodup_cons, List.mem_map] at hnd
    have htid : ∀ x ∈ rest, t.id ≠ x.id := by
      intro x hx he
      exact hnd.1 ⟨x, hx, he.symm⟩
    simp only [combinations2, List.countP_append]
    rcases List.mem_cons.mp ha with rfl | har
    · have hbr : b ∈ rest := by
        rcases List.mem_cons.mp hb with rfl | h
        · exact absurd rfl hab
        · exact h
      have h1 : (rest.map (fun u => (a, u))).countP
          (fun p => (p.1.id = a.id && p.2.id = b.id) || (p.1.id = b.id && p.2.id = a.id))
          = rest.countP (fun u => u.id = b.id) := by
        rw [List.countP_map]
        apply List.countP_congr
        intro u hu
        have : a.id ≠ b.id := hab
        simp only [Function.comp]
        constructor
        · intro h
          simp only [Bool.or_eq_true, Bool.and_eq_true, decide_eq_true_eq] at h
          rcases h with ⟨_, h2⟩ | ⟨h1, _⟩
          · simpa using h2
          · exact absurd h1 this
        · intro h
          simp only [decide_eq_true_eq] at h
          simp [h]
      have h2 : (combinations2 rest).countP
          (fun p => (p.1.id = a.id && p.2.id = b.id) || (p.1.id = b.id && p.2.id = a.id))
          = 0 := by
        rw [List.countP_eq_zero]
        intro p hp
        have hmem := mem_combinations2 rest p hp
        simp only [Bool.or_eq_true, Bool.and_eq_true, decide_eq_true_eq]
        rintro (⟨h1, _⟩ | ⟨_, h2⟩)
        · exact htid p.1 hmem.1 h1.symm
        · exact htid p.2 hmem.2 h2.symm
      rw [h1, h2, countP_id_eq rest b hnd.2 hbr]
    · rcases List.mem_cons.mp hb with rfl | hbr
      · have h1 : (rest.map (fun u => (b, u))).countP
            (fun p => (p.1.id = a.id && p.2.id = b.id) || (p.1.id = b.id && p.2.id = a.id))
            = rest.countP (fun u => u.id = a.id) := by
          rw [List.countP_map]
          apply List.countP_congr
          intro u hu
          simp only [Function.comp]
          constructor
          · intro h
            simp only [Bool.or_eq_true, Bool.and_eq_true, decide_eq_true_eq] at h
            rcases h with ⟨h1, _⟩ | ⟨_, h2⟩
            · exact absurd h1.symm hab
            · simpa using h2
          · intro h
            simp only [decide_eq_true_eq] at h
            simp [h]
        have h2 : (combinations2 rest).countP
            (fun p => (p.1.id = a.id && p.2.id = b.id) || (p.1.id = b.id && p.2.id = a.id))
            = 0 := by
          rw [List.countP_eq_zero]
          intro p hp
          have hmem := mem_combinations2 rest p hp
          simp only [Bool.or_eq_true, Bool.and_eq_true, decide_eq_true_eq]
          rintro (⟨_, h2⟩ | ⟨h1, _⟩)
          · exact htid p.2 hmem.2 h2.symm
          · exact htid p.1 hmem.1 h1.symm
        rw [h1, h2, countP_id_eq rest a hnd.2 har]
      · have h1 : (rest.map (fun u => (t, u))).countP
            (fun p => (p.1.id = a.id && p.2.id = b.id) || (p.1.id = b.id && p.2.id = a.id))
            = 0 := by
          rw [List.countP_map, List.countP_eq_zero]
          intro u hu
          simp only [Function.comp, Bool.or_eq_true, Bool.and_eq_true, decide_eq_true_eq]
          rintro (⟨h1, _⟩ | ⟨h1, _⟩)
          · exact htid a har h1
          · exact htid b hbr h1
        rw [h1, ih hnd.2 har hbr]

/-- C6: for a list of distinct teams the round-robin generator produces exactly
N(N-1)/2 matches, each unordered pair exactly once, every match unplayed and
tagged with stage round_robin. -/
theorem c6_round_robin_schedule (teams : List Team) (fmt : MatchFormat)
    (hnd : (teams.map Team.id).Nodup) :
    (generate_round_robin_schedule teams fmt).length
        = teams.length * (teams.length - 1) / 2 ∧
    (∀ a b, a ∈ teams → b ∈ teams → a.id ≠ b.id →
      (generate_round_robin_schedule teams fmt).countP (pairMatches a b) = 1) ∧
    (∀ m ∈ generate_round_robin_schedule teams fmt,
      m.result = none ∧ m.stage = "round_robin") := by
  refine ⟨?_, ?_, ?_⟩
  · have h := combinations2_length teams
    simp only [generate_round_robin_schedule, List.length_map]
    omega
  · intro a b ha hb hab
    simp only [generate_round_robin_schedule, pairMatches, List.countP_map]
    have := countP_pair_combinations2 teams a b hnd ha hb hab
    rw [← this]
    apply List.countP_congr
    intro p hp
    simp [pairMatches, Function.comp]
  · intro m hm
    simp only [generate_round_robin_schedule, List.mem_map] at hm
    obtain ⟨p, _, rfl⟩ := hm
    exact ⟨rfl, rfl⟩

/-- Witness for C6 at a concrete three-team list. -/
theorem c6_round_robin_schedule_witness :
    (([⟨"Alpha", "AL", 1, false⟩, ⟨"Beta", "BE", 2, false⟩,
        ⟨"Gamma", "GA", 3, false⟩] : List Team).map Team.id).Nodup ∧
    (generate_round_robin_schedule
        [⟨"Alpha", "AL", 1, false⟩, ⟨"Beta", "BE", 2, false⟩,
         ⟨"Gamma", "GA", 3, false⟩] .BO1).length = 3 ∧
    (generate_round_robin_schedule
        [⟨"Alpha", "AL", 1, false⟩, ⟨"Beta", "BE", 2, false⟩,
         ⟨"Gamma", "GA", 3, false⟩] .BO1).countP
      (pairMatches ⟨"Alpha", "AL", 1, false⟩ ⟨"Gamma", "GA", 3, false⟩) = 1 := by
  have h := c6_round_robin_schedule
    [⟨"Alpha", "AL", 1, false⟩, ⟨"Beta", "BE", 2, false⟩, ⟨"Gamma", "GA", 3, false⟩]
    .BO1 (by decide)
  refine ⟨by decide, h.1.trans (by decide), ?_⟩
  exact h.2.1 _ _ (by simp) (by simp) (by decide)

/-! ## Win-rate matrix (simulation/win_rates.py) -/

/-- Pairwise win probability table (simulation/win_rates.py). Team ids are the
keys; Python floats are modelled as rationals. -/
structure WinRateMatrix where
  matrix : List (Nat × List (Nat × ℚ)) := []
  default_rate : ℚ := 1/2
deriving DecidableEq

/-- get_win_probability: the stored entry, or the default rate when either
level of the table has no entry. -/
def WinRateMatrix.get_win_probability (m : WinRateMatrix) (team_a_id team_b_id : Nat) : ℚ :=
  match getA m.matrix team_a_id with
  | some row =>
    match getA row team_b_id with
    | some p => p
    | none => m.default_rate
  | none => m.default_rate

/-- set_win_probability: requires the probability in [0,1], then stores the
entry and its complement for the reversed pair. -/
def WinRateMatrix.set_win_probability (m : WinRateMatrix) (team_a_id team_b_id : Nat)
    (prob : ℚ) : Except String WinRateMatrix :=
  if ¬ (0 ≤ prob ∧ prob ≤ 1) then .error "Probability must be between 0 and 1"
  else
    let m1 := if (getA m.matrix team_a_id).isNone
      then setA m.matrix team_a_id [] else m.matrix
    let m2 := if (getA m1 team_b_id).isNone then setA m1 team_b_id [] else m1
    let rowa := (getA m2 team_a_id).getD []
    let m3 := setA m2 team_a_id (setA rowa team_b_id prob)
    let rowb := (getA m3 team_b_id).getD []
    let m4 := setA m3 team_b_id (setA rowb team_a_id (1 - prob))
    .ok { matrix := m4, default_rate := m.default_rate }

/-- C5: for distinct ids, setting P(a beats b) = p in [0,1] makes
P(b beats a) read 1 - p and P(a beats b) read p; a probability outside [0,1]
is rejected. -/
theorem c5_win_rate_complement :
    (∀ (m : WinRateMatrix) (a b : Nat) (p : ℚ), a ≠ b → 0 ≤ p → p ≤ 1 →
      ∃ m', m.set_win_probability a b p = .ok m' ∧
        m'.get_win_probability b a = 1 - p ∧ m'.get_win_probability a b = p) ∧
    (∀ (m : WinRateMatrix) (a b : Nat) (p : ℚ), ¬ (0 ≤ p ∧ p ≤ 1) →
      m.set_win_probability a b p = .error "Probability must be between 0 and 1") := by
  constructor
  · intro m a b p hab h0 h1
    rcases hset : m.set_win_probability a b p with e | m'
    · exfalso
      unfold WinRateMatrix.set_win_probability at hset
      rw [if_neg (not_not_intro ⟨h0, h1⟩)] at hset
      cases hset
    · unfold WinRateMatrix.set_win_probability at hset
      rw [if_neg (not_not_intro ⟨h0, h1⟩)] at hset
      simp only [Except.ok.injEq] at hset
      subst hset
      refine ⟨_, rfl, ?_, ?_⟩
      · simp only [WinRateMatrix.get_win_probability, getA_setA_self]
      · simp only [WinRateMatrix.get_win_probability]
        rw [getA_setA_ne _ b a _ (Ne.symm hab)]
        simp only [getA_setA_self]
  · intro m a b p h
    unfold WinRateMatrix.set_win_probability
    rw [if_pos h]

/-- Witness for C5 at concrete ids 3 and 7 with p = 1/3. -/
theorem c5_win_rate_complement_witness :
    (3 : Nat) ≠ 7 ∧ (0 : ℚ) ≤ 1/3 ∧ (1/3 : ℚ) ≤ 1 ∧
    (∃ m', (WinRateMatrix.mk [] (1/2)).set_win_probability 3 7 (1/3) = .ok m' ∧
      m'.get_win_probability 7 3 = 1 - 1/3 ∧ m'.get_win_probability 3 7 = 1/3) ∧
    ¬ ((0 : ℚ) ≤ 2 ∧ (2 : ℚ) ≤ 1) ∧
    (WinRateMatrix.mk [] (1/2)).set_win_probability 3 7 2
      = .error "Probability must be between 0 and 1" := by
  have h := c5_win_rate_complement
  refine ⟨by decide, by norm_num, by norm_num, ?_, by norm_num, ?_⟩
  · exact h.1 (WinRateMatrix.mk [] (1/2)) 3 7 (1/3) (by decide) (by norm_num) (by norm_num)
  · exact h.2 (WinRateMatrix.mk [] (1/2)) 3 7 2 (by norm_num)

/-! ## Standings ledger (models/standing.py) -/

/-- Standing of a single team (models/standing.py). head_to_head maps an
opponent id to (wins against them, losses against them). -/
structure TeamStanding where
  team : Team
  wins : Nat := 0
  losses : Nat := 0
  head_to_head : List (Nat × (Nat × Nat)) := []
deriving DecidableEq, Repr

/-- Total games played (a derived property in the source). -/
def TeamStanding.games_played (s : TeamStanding) : Nat := s.wins + s.losses

/-- get_h2h_record: the stored record or (0, 0). -/
def TeamStanding.get_h2h_record (s : TeamStanding) (opponent_id : Nat) : Nat × Nat :=
  (getA s.head_to_head opponent_id).getD (0, 0)

/-- record_win: bump wins and the head-to-head win counter for the opponent. -/
def TeamStanding.record_win (s : TeamStanding) (opponent_id : Nat) : TeamStanding :=
  let wl := (getA s.head_to_head opponent_id).getD (0, 0)
  { s with wins := s.wins + 1,
           head_to_head := setA s.head_to_head opponent_id (wl.1 + 1, wl.2) }

/-- record_loss: bump losses and the head-to-head loss counter. -/
def TeamStanding.record_loss (s : TeamStanding) (opponent_id : Nat) : TeamStanding :=
  let wl := (getA s.head_to_head opponent_id).getD (0, 0)
  { s with losses := s.losses + 1,
           head_to_head := setA s.head_to_head opponent_id (wl.1, wl.2 + 1) }

/-- Collection of all team standings, keyed by team id (models/standing.py). -/
structure Standings where
  standings : List (Nat × TeamStanding) := []
deriving DecidableEq, Repr

def Standings.get (s : Standings) (team_id : Nat) : Option TeamStanding :=
  getA s.standings team_id

/-- The dict values, in insertion order. -/
def Standings.values (s : Standings) : List TeamStanding :=
  s.standings.map Prod.snd

/-- add_team: create an empty record for the team. -/
def Standings.add_team (s : Standings) (t : Team) : Standings :=
  { standings := setA s.standings t.id { team := t } }

/-- record_match_result: both teams must be present; then the winner records a
win against the loser and the loser a loss against the winner. The loser's
standing is re-read after the winner update, which reproduces the Python
aliasing when both ids coincide. -/
def Standings.record_match_result (s : Standings) (winner loser : Team) :
    Except String Standings :=
  if (s.get winner.id).isNone ∨ (s.get loser.id).isNone then
    .error "Both teams must be in standings"
  else
    let ws := ((s.get winner.id).getD { team := winner }).record_win loser.id
    let s1 : Standings := { standings := setA s.standings winner.id ws }
    let ls := ((s1.get loser.id).getD { team := loser }).record_loss winner.id
    .ok { standings := setA s1.standings loser.id ls }

/-- Standings at tournament creation: one empty record per team. -/
def mkStandings (teams : List Team) : Standings :=
  teams.foldl Standings.add_team { standings := [] }

/-- Fold a list of (winner, loser) results through record_match_result. -/
def applyResults (s : Standings) : List (Team × Team) → Except String Standings
  | [] => .ok s
  | (w, l) :: rest =>
    match s.record_match_result w l with
    | .ok s' => applyResults s' rest
    | .error e => .error e

/-- Sum of head-to-head win entries. -/
def h2hSumW (l : List (Nat × (Nat × Nat))) : Nat := (l.map (fun p => p.2.1)).sum

/-- Sum of head-to-head loss entries. -/
def h2hSumL (l : List (Nat × (Nat × Nat))) : Nat := (l.map (fun p => p.2.2)).sum

/-- The head-to-head ledger invariant for one standing. -/
def SumInv (st : TeamStanding) : Prop :=
  h2hSumW st.head_to_head = st.wins ∧ h2hSumL st.head_to_head = st.losses

theorem h2hSumW_bump (l : List (Nat × (Nat × Nat))) (k : Nat) :
    h2hSumW (setA l k (((getA l k).getD (0, 0)).1 + 1, ((getA l k).getD (0, 0)).2))
      = h2hSumW l + 1 := by
  induction l with
  | nil => simp [h2hSumW, setA, getA]
  | cons p t ih =>
    by_cases hp : p.1 = k
    · simp [setA, hp, getA, h2hSumW]
      omega
    · simp only [setA, getA, hp, if_neg hp, ite_false]
      simp only [h2hSumW, List.map_cons, List.sum_cons] at ih ⊢
      omega

theorem h2hSumL_bump_keep (l : List (Nat × (Nat × Nat))) (k : Nat) :
    h2hSumL (setA l k (((getA l k).getD (0, 0)).1 + 1, ((getA l k).getD (0, 0)).2))
      = h2hSumL l := by
  induction l with
  | nil => simp [h2hSumL, setA, getA]
  | cons p t ih =>
    by_cases hp : p.1 = k
    · simp [setA, hp, getA, h2hSumL]
    · simp only [setA, getA, hp, if_neg hp, ite_false]
      simp only [h2hSumL, List.map_cons, List.sum_cons] at ih ⊢
      omega

theorem h2hSumL_bump (l : List (Nat × (Nat × Nat))) (k : Nat) :
    h2hSumL (setA l k (((getA l k).getD (0, 0)).1, ((getA l k).getD (0, 0)).2 + 1))
      = h2hSumL l + 1 := by
  induction l with
  | nil => simp [h2hSumL, setA, getA]
  | cons p t ih =>
    by_cases hp : p.1 = k
    · simp [setA, hp, getA, h2hSumL]
      omega
    · simp only [setA, getA, hp, if_neg hp, ite_false]
      simp only [h2hSumL, List.map_cons, List.sum_cons] at ih ⊢
      omega

theorem h2hSumW_bump_keep (l : List (Nat × (Nat × Nat))) (k : Nat) :
    h2hSumW (setA l k (((getA l k).getD (0, 0)).1, ((getA l k).getD (0, 0)).2 + 1))
      = h2hSumW l := by
  induction l with
  | nil => simp [h2hSumW, setA, getA]
  | cons p t ih =>
    by_cases hp : p.1 = k
    · simp [setA, hp, getA, h2hSumW]
    · simp only [setA, getA, hp, if_neg hp, ite_false]
      simp only [h2hSumW, List.map_cons, List.sum_cons] at ih ⊢
      omega

theorem sumInv_record_win (st : TeamStanding) (opp : Nat) (h : SumInv st) :
    SumInv (st.record_win opp) := by
  obtain ⟨hw, hl⟩ := h
  unfold SumInv TeamStanding.record_win
  simp only []
  constructor
  · rw [h2hSumW_bump, hw]
  · rw [h2hSumL_bump_keep, hl]

theorem sumInv_record_loss (st : TeamStanding) (opp : Nat) (h : SumInv st) :
    SumInv (st.record_loss opp) := by
  obtain ⟨hw, hl⟩ := h
  unfold SumInv TeamStanding.record_loss
  simp only []
  constructor
  · rw [h2hSumW_bump_keep, hw]
  · rw [h2hSumL_bump, hl]

/-- The invariant holds for every standing in the collection. -/
def StandingsInv (s : Standings) : Prop := ∀ st ∈ s.values, SumInv st

theorem standingsInv_record (s : Standings) (w l : Team) (s' : Standings)
    (hinv : StandingsInv s) (h : s.record_match_result w l = .ok s') :
    StandingsInv s' := by
  unfold Standings.record_match_result at h
  rcases hvw : s.get w.id with _ | vw
  · rw [if_pos (Or.inl (by simp [hvw]))] at h; cases h
  rcases hvl : s.get l.id with _ | vl
  · rw [if_pos (Or.inr (by simp [hvl]))] at h; cases h
  rw [if_neg (by simp [hvw, hvl])] at h
  simp only [hvw, Option.getD_some, Except.ok.injEq] at h
  have hvw_inv : SumInv (vw.record_win l.id) :=
    sumInv_record_win _ _ (hinv vw (getA_mem_values _ _ _ hvw))
  have hlv : ∃ u, Standings.get
      { standings := setA s.standings w.id (vw.record_win l.id) } l.id
        = some u ∧ SumInv u := by
    by_cases hwl : w.id = l.id
    · refine ⟨vw.record_win l.id, ?_, hvw_inv⟩
      simpa [Standings.get, hwl] using
        getA_setA_self s.standings l.id (vw.record_win l.id)
    · refine ⟨vl, ?_, hinv vl (getA_mem_values _ _ _ hvl)⟩
      simpa [Standings.get] using
        (getA_setA_ne s.standings w.id l.id _ hwl).trans hvl
  obtain ⟨u, hu, huinv⟩ := hlv
  rw [hu] at h
  simp only [Option.getD_some] at h
  subst h
  intro st hst
  rcases mem_values_setA _ _ _ _ hst with rfl | hst1
  · exact sumInv_record_loss _ _ huinv
  rcases mem_values_setA _ _ _ _ hst1 with rfl | hst2
  · exact hvw_inv
  · exact hinv st hst2

theorem standingsInv_mk (teams : List Team) : StandingsInv (mkStandings teams) := by
  unfold mkStandings
  have h : ∀ (ts : List Team) (s : Standings), StandingsInv s →
      StandingsInv (ts.foldl Standings.add_team s) := by
    intro ts
    induction ts with
    | nil => intro s hs; exact hs
    | cons t rest ih =>
      intro s hs
      apply ih
      intro st hst
      rcases mem_values_setA _ _ _ _ hst with rfl | hst1
      · exact ⟨rfl, rfl⟩
      · exact hs st hst1
  apply h
  intro st hst
  simp [Standings.values] at hst

theorem standingsInv_apply (cmds : List (Team × Team)) :
    ∀ (s s' : Standings), StandingsInv s → applyResults s cmds = .ok s' →
      StandingsInv s' := by
  induction cmds with
  | nil =>
    intro s s' hs h
    simp only [applyResults, Except.ok.injEq] at h
    subst h
    exact hs
  | cons c rest ih =>
    intro s s' hs h
    simp only [applyResults] at h
    rcases hr : s.record_match_result c.1 c.2 with e | s1
    · rw [hr] at h; cases h
    · rw [hr] at h
      exact ih s1 s' (standingsInv_record s c.1 c.2 s1 hs hr) h

/-- C7: from all-zero standings, any successful sequence of
record_match_result calls preserves games_played = wins + losses and the
head-to-head sum invariant; a result for an absent team is rejected. -/
theorem c7_standings_invariant :
    (∀ (teams : List Team) (cmds : List (Team × Team)) (s' : Standings),
      applyResults (mkStandings teams) cmds = .ok s' →
      ∀ st ∈ s'.values, st.games_played = st.wins + st.losses ∧
        h2hSumW st.head_to_head = st.wins ∧ h2hSumL st.head_to_head = st.losses) ∧
    (∀ (s : Standings) (w l : Team), (s.get w.id).isNone ∨ (s.get l.id).isNone →
      s.record_match_result w l = .error "Both teams must be in standings") := by
  constructor
  · intro teams cmds s' h st hst
    have hinv := standingsInv_apply cmds (mkStandings teams) s' (standingsInv_mk teams) h
    obtain ⟨hw, hl⟩ := hinv st hst
    exact ⟨rfl, hw, hl⟩
  · intro s w l h
    unfold Standings.record_match_result
    rw [if_pos (by simpa using h)]

/-! ## Tiebreaker engine (tiebreaker/resolver.py) -/

inductive TiebreakerMethod
  | HEAD_TO_HEAD
  | STRENGTH_OF_VICTORY
  | COINFLIP
deriving DecidableEq, Repr

/-- Result of applying a tiebreaker rule. -/
structure TiebreakerResult where
  resolved : Bool
  method_used : Option TiebreakerMethod
  ordered_teams : List TeamStanding
  notes : String := ""

/-- Two-way head-to-head comparison (HeadToHeadTiebreaker._resolve_two_way).
Only called on lists of length two. -/
def resolve_two_way (teams : List TeamStanding) : TiebreakerResult :=
  match teams with
  | [t1, t2] =>
    let h2h_1 := t1.get_h2h_record t2.team.id
    let h2h_2 := t2.get_h2h_record t1.team.id
    if h2h_1.1 > h2h_2.1 then ⟨true, some .HEAD_TO_HEAD, [t1, t2], "H2H wins"⟩
    else if h2h_2.1 > h2h_1.1 then ⟨true, some .HEAD_TO_HEAD, [t2, t1], "H2H wins"⟩
    else ⟨false, none, teams, "H2H tied"⟩
  | _ => ⟨false, none, teams, "H2H tied"⟩

/-- Internal win minus loss differential of a tied team against the other tied
teams (set of ids modelled as the deduplicated id list). -/
def internalDiff (tied : List TeamStanding) (t : TeamStanding) : Int :=
  let team_ids := ((tied.map (fun x => x.team.id)).dedup).filter (fun i => i ≠ t.team.id)
  let wins := (team_ids.map (fun oid => (t.get_h2h_record oid).1)).sum
  let losses := (team_ids.map (fun oid => (t.get_h2h_record oid).2)).sum
  (wins : Int) - (losses : Int)

/-- Multi-way head-to-head (HeadToHeadTiebreaker._resolve_multi_way): order by
internal differential descending; resolved only when all differentials are
distinct. -/
def resolve_multi_way (tied : List TeamStanding) : TiebreakerResult :=
  let sorted_teams := tied.mergeSort (fun a b => decide (internalDiff tied b ≤ internalDiff tied a))
  let diffs := sorted_teams.map (internalDiff tied)
  if diffs.dedup.length = diffs.length then
    ⟨true, some .HEAD_TO_HEAD, sorted_teams, "Multi-way H2H"⟩
  else
    ⟨false, none, sorted_teams, "Multi-way H2H partially resolved"⟩

/-- HeadToHeadTiebreaker.resolve. -/
def HeadToHeadTiebreaker.resolve (tied : List TeamStanding) (_all : Standings) :
    TiebreakerResult :=
  if tied.length = 2 then resolve_two_way tied else resolve_multi_way tied

/-- Strength-of-victory score: sum over defeated opponents of opponent total
wins times the number of wins against them. -/
def sovScore (all : Standings) (t : TeamStanding) : Nat :=
  (t.head_to_head.map (fun p =>
    if p.2.1 > 0 then
      match all.get p.1 with
      | some opp => opp.wins * p.2.1
      | none => 0
    else 0)).sum

/-- StrengthOfVictoryTiebreaker.resolve: order by score descending; resolved
only when all scores are distinct. -/
def StrengthOfVictoryTiebreaker.resolve (tied : List TeamStanding) (all : Standings) :
    TiebreakerResult :=
  let sorted_teams := tied.mergeSort (fun a b => decide (sovScore all b ≤ sovScore all a))
  let scores := sorted_teams.map (sovScore all)
  if scores.dedup.length = scores.length then
    ⟨true, some .STRENGTH_OF_VICTORY, sorted_teams, "SoV"⟩
  else
    ⟨false, none, sorted_teams, "SoV tied"⟩

/-- CoinflipTiebreaker.resolve: shuffle the tied teams; always resolved. -/
def CoinflipTiebreaker.resolve (tied : List TeamStanding) (rng : Rng) :
    TiebreakerResult × Rng :=
  let pr := rng.shuffle tied
  (⟨true, some .COINFLIP, pr.1, "Random tiebreaker"⟩, pr.2)

/-- TiebreakerChain.resolve with the default rule list (head-to-head, then
strength of victory, then coinflip), threading the random source. Each failed
rule hands its partial ordering to the next rule; the coinflip is last, so the
loop's unreachable fallback return is dead code and is not modelled. -/
def TiebreakerChain.resolve (tied : List TeamStanding) (all : Standings) (rng : Rng) :
    TiebreakerResult × Rng :=
  if tied.length ≤ 1 then (⟨true, none, tied, "No tie"⟩, rng)
  else
    let r1 := HeadToHeadTiebreaker.resolve tied all
    if r1.resolved then (r1, rng)
    else
      let r2 := StrengthOfVictoryTiebreaker.resolve r1.ordered_teams all
      if r2.resolved then (r2, rng)
      else CoinflipTiebreaker.resolve r2.ordered_teams rng

/-! ## Playoff bracket state machine (tournament/playoffs.py) -/

/-- The 14 fixed positions of the 8-team double-elimination bracket. -/
inductive BracketPosition
  | UPPER_QF_1
  | UPPER_QF_2
  | UPPER_QF_3
  | UPPER_QF_4
  | UPPER_SF_1
  | UPPER_SF_2
  | UPPER_FINAL
  | LOWER_R1_1
  | LOWER_R1_2
  | LOWER_R2_1
  | LOWER_R2_2
  | LOWER_SF
  | LOWER_FINAL
  | GRAND_FINAL
deriving DecidableEq, Repr

/-- position.name.lower(), the stage label of lazily created matches. -/
def BracketPosition.lowerName : BracketPosition → String
  | .UPPER_QF_1 => "upper_qf_1"
  | .UPPER_QF_2 => "upper_qf_2"
  | .UPPER_QF_3 => "upper_qf_3"
  | .UPPER_QF_4 => "upper_qf_4"
  | .UPPER_SF_1 => "upper_sf_1"
  | .UPPER_SF_2 => "upper_sf_2"
  | .UPPER_FINAL => "upper_final"
  | .LOWER_R1_1 => "lower_r1_1"
  | .LOWER_R1_2 => "lower_r1_2"
  | .LOWER_R2_1 => "lower_r2_1"
  | .LOWER_R2_2 => "lower_r2_2"
  | .LOWER_SF => "lower_sf"
  | .LOWER_FINAL => "lower_final"
  | .GRAND_FINAL => "grand_final"

/-- All 14 positions. -/
def allPositions : List BracketPosition :=
  [.UPPER_QF_1, .UPPER_QF_2, .UPPER_QF_3, .UPPER_QF_4, .UPPER_SF_1, .UPPER_SF_2,
   .UPPER_FINAL, .LOWER_R1_1, .LOWER_R1_2, .LOWER_R2_1, .LOWER_R2_2, .LOWER_SF,
   .LOWER_FINAL, .GRAND_FINAL]

theorem mem_allPositions (p : BracketPosition) : p ∈ allPositions := by
  cases p <;> simp [allPositions]

/-- Python set.add on the eliminated set, modelled as an insertion-ordered
list with membership by team id. -/
def addToSet (l : List Team) (t : Team) : List Team :=
  if l.any (fun x => decide (x.id = t.id)) then l else l ++ [t]

/-- Double-elimination playoff bracket (tournament/playoffs.py). The matches
and results dicts are total functions to Option. -/
structure PlayoffBracket where
  teams : List Team := []
  matches' : BracketPosition → Option Match := fun _ => none
  results : BracketPosition → Option MatchResult := fun _ => none
  eliminated : List Team := []
  champion : Option Team := none
  runner_up : Option Team := none
  third_place : Option Team := none
  fourth_place : Option Team := none

/-- A freshly constructed PlayoffBracket(). -/
def emptyBracket : PlayoffBracket := {}

/-- seed_teams: requires exactly 8 teams, wires the four upper quarterfinals
with pairings 1v8, 4v5, 2v7, 3v6, each best-of-3. -/
def PlayoffBracket.seed_teams (b : PlayoffBracket) (seeded_teams : List Team) :
    Except String PlayoffBracket :=
  match seeded_teams with
  | [s1, s2, s3, s4, s5, s6, s7, s8] =>
    .ok { b with
      teams := [s1, s2, s3, s4, s5, s6, s7, s8],
      matches' := fun p =>
        match p with
        | .UPPER_QF_1 => some ⟨s1, s8, .BO3, "upper_qf", none⟩
        | .UPPER_QF_2 => some ⟨s4, s5, .BO3, "upper_qf", none⟩
        | .UPPER_QF_3 => some ⟨s2, s7, .BO3, "upper_qf", none⟩
        | .UPPER_QF_4 => some ⟨s3, s6, .BO3, "upper_qf", none⟩
        | q => b.matches' q }
  | _ => .error "Exactly 8 teams required for playoffs"

/-- _set_or_create_match: put a team into one slot of a match, creating the
match as a placeholder (both slots the same team) when absent; an existing
match keeps its format and stage. -/
def PlayoffBracket.set_or_create_match (b : PlayoffBracket) (position : BracketPosition)
    (team : Team) (is_team_a : Bool) (fmt : MatchFormat := .BO3) : PlayoffBracket :=
  match b.matches' position with
  | none =>
    { b with matches' := fun q =>
        if q = position then some ⟨team, team, fmt, position.lowerName, none⟩
        else b.matches' q }
  | some m =>
    if is_team_a then
      { b with matches' := fun q =>
          if q = position then some ⟨team, m.team_b, m.format, m.stage, none⟩
          else b.matches' q }
    else
      { b with matches' := fun q =>
          if q = position then some ⟨m.team_a, team, m.format, m.stage, none⟩
          else b.matches' q }

/-- _update_bracket_progression: fixed winner/loser routing table. -/
def PlayoffBracket.update_bracket_progression (b : PlayoffBracket)
    (position : BracketPosition) (result : MatchResult) : PlayoffBracket :=
  let winner := result.winner
  let loser := result.loser
  match position with
  | .UPPER_QF_1 =>
    (b.set_or_create_match .UPPER_SF_1 winner true).set_or_create_match
      .LOWER_R1_1 loser true
  | .UPPER_QF_2 =>
    (b.set_or_create_match .UPPER_SF_1 winner false).set_or_create_match
      .LOWER_R1_1 loser false
  | .UPPER_QF_3 =>
    (b.set_or_create_match .UPPER_SF_2 winner true).set_or_create_match
      .LOWER_R1_2 loser true
  | .UPPER_QF_4 =>
    (b.set_or_create_match .UPPER_SF_2 winner false).set_or_create_match
      .LOWER_R1_2 loser false
  | .UPPER_SF_1 =>
    (b.set_or_create_match .UPPER_FINAL winner true .BO5).set_or_create_match
      .LOWER_R2_1 loser false
  | .UPPER_SF_2 =>
    (b.set_or_create_match .UPPER_FINAL winner false .BO5).set_or_create_match
      .LOWER_R2_2 loser false
  | .UPPER_FINAL =>
    (b.set_or_create_match .GRAND_FINAL winner true .BO5).set_or_create_match
      .LOWER_FINAL loser false .BO5
  | .LOWER_R1_1 =>
    let b1 := b.set_or_create_match .LOWER_R2_1 winner true
    { b1 with eliminated := addToSet b1.eliminated loser }
  | .LOWER_R1_2 =>
    let b1 := b.set_or_create_match .LOWER_R2_2 winner true
    { b1 with eliminated := addToSet b1.eliminated loser }
  | .LOWER_R2_1 =>
    let b1 := b.set_or_create_match .LOWER_SF winner true .BO5
    { b1 with eliminated := addToSet b1.eliminated loser }
  | .LOWER_R2_2 =>
    let b1 := b.set_or_create_match .LOWER_SF winner false .BO5
    { b1 with eliminated := addToSet b1.eliminated loser }
  | .LOWER_SF =>
    let b1 := b.set_or_create_match .LOWER_FINAL winner true .BO5
    { b1 with fourth_place := some loser, eliminated := addToSet b1.eliminated loser }
  | .LOWER_FINAL =>
    let b1 := b.set_or_create_match .GRAND_FINAL winner false .BO5
    { b1 with third_place := some loser, eliminated := addToSet b1.eliminated loser }
  | .GRAND_FINAL =>
    { b with champion := some winner, runner_up := some loser,
             eliminated := addToSet b.eliminated loser }

/-- record_result: store the result, then route winner and loser. -/
def PlayoffBracket.record_result (b : PlayoffBracket) (position : BracketPosition)
    (result : MatchResult) : PlayoffBracket :=
  let b1 : PlayoffBracket :=
    { b with results := fun q => if q = position then some result else b.results q }
  b1.update_bracket_progression position result

/-- is_complete: a champion exists. -/
def PlayoffBracket.is_complete (b : PlayoffBracket) : Bool := b.champion.isSome

/-- get_placement: named placements 1-4, then the flat value 5 for everyone in
the eliminated set, else none. Python compares teams by id. -/
def PlayoffBracket.get_placement (b : PlayoffBracket) (team : Team) : Option Nat :=
  if b.champion.map Team.id = some team.id then some 1
  else if b.runner_up.map Team.id = some team.id then some 2
  else if b.third_place.map Team.id = some team.id then some 3
  else if b.fourth_place.map Team.id = some team.id then some 4
  else if b.eliminated.any (fun x => decide (x.id = team.id)) then some 5
  else none

/-! ## Tournament orchestration (tournament/tournament.py) -/

/-- The aggregate tournament (tournament/tournament.py). The uuid-keyed
_completed_match_ids set is omitted together with match ids: the verified core
never reads it. -/
structure Tournament where
  teams : List Team
  standings : Standings := {}
  round_robin_matches : List Match := []
  playoff_bracket : Option PlayoffBracket := none

/-- __post_init__: populate empty standings with one record per team. -/
def Tournament.init (teams : List Team) (standings : Standings := {})
    (round_robin_matches : List Match := []) : Tournament :=
  { teams := teams,
    standings :=
      if standings.standings.length = 0 then mkStandings teams else standings,
    round_robin_matches := round_robin_matches,
    playoff_bracket := none }

/-- create_new: a fresh tournament with the full round-robin schedule. -/
def Tournament.create_new (teams : List Team) : Tournament :=
  { Tournament.init teams with
    round_robin_matches := generate_round_robin_schedule teams .BO1 }

def Tournament.get_remaining_round_robin_matches (t : Tournament) : List Match :=
  t.round_robin_matches.filter (fun m => !m.is_completed)

/-- One win-count group step of resolve_standings: a singleton group is taken
as is, a larger group goes through the tiebreaker chain. -/
def resolveStep (vals : List TeamStanding) (std : Standings)
    (acc : List TeamStanding × Rng) (w : Nat) : List TeamStanding × Rng :=
  let group := vals.filter (fun s => decide (s.wins = w))
  if group.length = 1 then (acc.1 ++ group, acc.2)
  else
    let pr := TiebreakerChain.resolve group std acc.2
    (acc.1 ++ pr.1.ordered_teams, pr.2)

/-- resolve_standings: group by win count, resolve each group of size above
one through the tiebreaker chain from most wins to fewest, concatenate. -/
def Tournament.resolve_standings (t : Tournament) (rng : Rng) :
    List TeamStanding × Rng :=
  let vals := t.standings.values
  let ws := ((vals.map (fun s => s.wins)).dedup).insertionSort (fun a b => b ≤ a)
  ws.foldl (resolveStep vals t.standings) ([], rng)

/-- create_playoff_bracket: requires at least 8 standings; seeds the top 8. -/
def Tournament.create_playoff_bracket (_t : Tournament)
    (seeded_standings : List TeamStanding) : Except String PlayoffBracket :=
  if seeded_standings.length < 8 then .error "Need at least 8 teams for playoffs"
  else emptyBracket.seed_teams ((seeded_standings.take 8).map (fun s => s.team))

/-- copy: per-trial deep copy. Matches and standings are value-copied (the
identity on the pure representation), team references shared, and the new
tournament starts without a playoff bracket; an empty standings table is
repopulated as in __post_init__. -/
def Tournament.copy (t : Tournament) : Tournament :=
  { teams := t.teams,
    standings :=
      if t.standings.standings.length = 0 then mkStandings t.teams else t.standings,
    round_robin_matches := t.round_robin_matches,
    playoff_bracket := none }

/-- C4: seed_teams rejects any list of other than exactly 8 teams (the
bracket is returned unchanged only through the error, no partial mutation
exists), and with exactly 8 teams creates precisely the four best-of-3 upper
quarterfinals paired 1v8, 4v5, 2v7, 3v6, touching no other position. -/
theorem c4_seed_teams :
    (∀ (b : PlayoffBracket) (ts : List Team), ts.length ≠ 8 →
      b.seed_teams ts = .error "Exactly 8 teams required for playoffs") ∧
    (∀ (b : PlayoffBracket) (s1 s2 s3 s4 s5 s6 s7 s8 : Team),
      ∃ b', b.seed_teams [s1, s2, s3, s4, s5, s6, s7, s8] = .ok b' ∧
        b'.matches' .UPPER_QF_1 = some ⟨s1, s8, .BO3, "upper_qf", none⟩ ∧
        b'.matches' .UPPER_QF_2 = some ⟨s4, s5, .BO3, "upper_qf", none⟩ ∧
        b'.matches' .UPPER_QF_3 = some ⟨s2, s7, .BO3, "upper_qf", none⟩ ∧
        b'.matches' .UPPER_QF_4 = some ⟨s3, s6, .BO3, "upper_qf", none⟩ ∧
        (∀ p, p ≠ BracketPosition.UPPER_QF_1 → p ≠ BracketPosition.UPPER_QF_2 →
          p ≠ BracketPosition.UPPER_QF_3 → p ≠ BracketPosition.UPPER_QF_4 →
          b'.matches' p = b.matches' p)) := by
  constructor
  · intro b ts h
    rcases ts with _ | ⟨a1, _ | ⟨a2, _ | ⟨a3, _ | ⟨a4, _ | ⟨a5, _ | ⟨a6, _ | ⟨a7,
      _ | ⟨a8, _ | ⟨a9, rest⟩⟩⟩⟩⟩⟩⟩⟩⟩ <;>
      first
      | rfl
      | exact absurd rfl h
  · intro b s1 s2 s3 s4 s5 s6 s7 s8
    refine ⟨_, rfl, rfl, rfl, rfl, rfl, ?_⟩
    intro p h1 h2 h3 h4
    cases p <;> simp_all [PlayoffBracket.seed_teams]

/-- Witness for C4: a two-team list is rejected, a full eight-team list is
seeded. -/
theorem c4_seed_teams_witness :
    emptyBracket.seed_teams [⟨"A", "A", 1, false⟩, ⟨"B", "B", 2, false⟩]
        = .error "Exactly 8 teams required for playoffs" ∧
    (∃ b', emptyBracket.seed_teams
        [⟨"A", "A", 1, false⟩, ⟨"B", "B", 2, false⟩, ⟨"C", "C", 3, false⟩,
         ⟨"D", "D", 4, false⟩, ⟨"E", "E", 5, false⟩, ⟨"F", "F", 6, false⟩,
         ⟨"G", "G", 7, false⟩, ⟨"H", "H", 8, false⟩] = .ok b' ∧
      b'.matches' .UPPER_QF_1
          = some ⟨⟨"A", "A", 1, false⟩, ⟨"H", "H", 8, false⟩, .BO3, "upper_qf", none⟩ ∧
      b'.matches' .UPPER_QF_2
          = some ⟨⟨"D", "D", 4, false⟩, ⟨"E", "E", 5, false⟩, .BO3, "upper_qf", none⟩ ∧
      b'.matches' .UPPER_QF_3
          = some ⟨⟨"B", "B", 2, false⟩, ⟨"G", "G", 7, false⟩, .BO3, "upper_qf", none⟩ ∧
      b'.matches' .UPPER_QF_4
          = some ⟨⟨"C", "C", 3, false⟩, ⟨"F", "F", 6, false⟩, .BO3, "upper_qf", none⟩) := by
  have h := c4_seed_teams
  constructor
  · exact h.1 emptyBracket [⟨"A", "A", 1, false⟩, ⟨"B", "B", 2, false⟩] (by decide)
  · obtain ⟨b', hb, h1, h2, h3, h4, _⟩ := h.2 emptyBracket
      ⟨"A", "A", 1, false⟩ ⟨"B", "B", 2, false⟩ ⟨"C", "C", 3, false⟩
      ⟨"D", "D", 4, false⟩ ⟨"E", "E", 5, false⟩ ⟨"F", "F", 6, false⟩
      ⟨"G", "G", 7, false⟩ ⟨"H", "H", 8, false⟩
    exact ⟨b', hb, h1, h2, h3, h4⟩

/-- C10: get_placement answers 5 for every eliminated team holding no named
placement, and none for a team neither eliminated nor named. -/
theorem c10_get_placement (b : PlayoffBracket) (t : Team)
    (hc : b.champion.map Team.id ≠ some t.id)
    (hr : b.runner_up.map Team.id ≠ some t.id)
    (h3 : b.third_place.map Team.id ≠ some t.id)
    (h4 : b.fourth_place.map Team.id ≠ some t.id) :
    (b.eliminated.any (fun x => decide (x.id = t.id)) = true →
      b.get_placement t = some 5) ∧
    (b.eliminated.any (fun x => decide (x.id = t.id)) = false →
      b.get_placement t = none) := by
  constructor
  · intro he
    unfold PlayoffBracket.get_placement
    rw [if_neg hc, if_neg hr, if_neg h3, if_neg h4, if_pos he]
  · intro he
    unfold PlayoffBracket.get_placement
    rw [if_neg hc, if_neg hr, if_neg h3, if_neg h4, if_neg (by simp [he])]

/-- Witness for C10 on a concrete bracket with one eliminated team. -/
theorem c10_get_placement_witness :
    (PlayoffBracket.get_placement
      { emptyBracket with
          champion := some ⟨"C", "C", 1, false⟩,
          eliminated := [⟨"E", "E", 5, false⟩] } ⟨"E", "E", 5, false⟩ = some 5) ∧
    (PlayoffBracket.get_placement
      { emptyBracket with
          champion := some ⟨"C", "C", 1, false⟩,
          eliminated := [⟨"E", "E", 5, false⟩] } ⟨"X", "X", 9, false⟩ = none) := by
  have h1 := c10_get_placement
    { emptyBracket with
        champion := some ⟨"C", "C", 1, false⟩,
        eliminated := [⟨"E", "E", 5, false⟩] } ⟨"E", "E", 5, false⟩
    (by decide) (by decide) (by decide) (by decide)
  have h2 := c10_get_placement
    { emptyBracket with
        champion := some ⟨"C", "C", 1, false⟩,
        eliminated := [⟨"E", "E", 5, false⟩] } ⟨"X", "X", 9, false⟩
    (by decide) (by decide) (by decide) (by decide)
  exact ⟨h1.1 (by decide), h2.2 (by decide)⟩

/-- The format the bracket state machine actually gives a match created at
each position: best-of-5 for the upper final, lower semifinal, lower final and
grand final; best-of-3 everywhere else. -/
def expectedFmt : BracketPosition → MatchFormat
  | .UPPER_FINAL => .BO5
  | .LOWER_SF => .BO5
  | .LOWER_FINAL => .BO5
  | .GRAND_FINAL => .BO5
  | _ => .BO3

/-- Brackets reachable through the state machine: a freshly seeded bracket,
then any sequence of record_result steps. -/
inductive ReachableBracket : PlayoffBracket → Prop
  | seeded (ts : List Team) (b : PlayoffBracket)
      (h : emptyBracket.seed_teams ts = .ok b) : ReachableBracket b
  | step (b : PlayoffBracket) (p : BracketPosition) (r : MatchResult)
      (h : ReachableBracket b) : ReachableBracket (b.record_result p r)

theorem fmtInv_set_or_create (b : PlayoffBracket) (pos : BracketPosition) (team : Team)
    (isA : Bool) (fmt : MatchFormat)
    (hinv : ∀ p m, b.matches' p = some m → m.format = expectedFmt p)
    (hfmt : fmt = expectedFmt pos) :
    ∀ p m, (b.set_or_create_match pos team isA fmt).matches' p = some m →
      m.format = expectedFmt p := by
  intro p m hm
  unfold PlayoffBracket.set_or_create_match at hm
  rcases hb : b.matches' pos with _ | m0 <;> rw [hb] at hm <;> simp only [] at hm
  · by_cases hp : p = pos
    · subst hp
      rw [if_pos rfl] at hm
      cases hm
      exact hfmt
    · rw [if_neg hp] at hm
      exact hinv p m hm
  · cases isA <;> simp only [Bool.false_eq_true, if_true, if_false] at hm <;>
      by_cases hp : p = pos
    · subst hp
      rw [if_pos rfl] at hm
      cases hm
      exact hinv p m0 hb
    · rw [if_neg hp] at hm
      exact hinv p m hm
    · subst hp
      rw [if_pos rfl] at hm
      cases hm
      exact hinv p m0 hb
    · rw [if_neg hp] at hm
      exact hinv p m hm

/-- C8 (amended): in every reachable bracket, a match at the upper final,
lower semifinal, lower final or grand final position is best-of-5, and a
match at any other position (the seeded quarterfinals, upper semifinals,
lower round 1 and lower round 2) is best-of-3. -/
theorem c8_format_table (b : PlayoffBracket) (h : ReachableBracket b) :
    ∀ p m, b.matches' p = some m → m.format = expectedFmt p := by
  induction h with
  | seeded ts b0 h =>
    unfold PlayoffBracket.seed_teams at h
    split at h
    · simp only [Except.ok.injEq] at h
      subst h
      intro p m hm
      cases p <;> simp_all [emptyBracket, expectedFmt] <;> subst hm <;> rfl
    · cases h
  | step b0 p r h ih =>
    unfold PlayoffBracket.record_result PlayoffBracket.update_bracket_progression
    have hres : ∀ q m, (PlayoffBracket.matches'
        { b0 with results := fun q => if q = p then some r else b0.results q } q)
          = some m → m.format = expectedFmt q := ih
    cases p
    case UPPER_QF_1 =>
      exact fmtInv_set_or_create _ _ _ _ _ (fmtInv_set_or_create _ _ _ _ _ hres rfl) rfl
    case UPPER_QF_2 =>
      exact fmtInv_set_or_create _ _ _ _ _ (fmtInv_set_or_create _ _ _ _ _ hres rfl) rfl
    case UPPER_QF_3 =>
      exact fmtInv_set_or_create _ _ _ _ _ (fmtInv_set_or_create _ _ _ _ _ hres rfl) rfl
    case UPPER_QF_4 =>
      exact fmtInv_set_or_create _ _ _ _ _ (fmtInv_set_or_create _ _ _ _ _ hres rfl) rfl
    case UPPER_SF_1 =>
      exact fmtInv_set_or_create _ _ _ _ _ (fmtInv_set_or_create _ _ _ _ _ hres rfl) rfl
    case UPPER_SF_2 =>
      exact fmtInv_set_or_create _ _ _ _ _ (fmtInv_set_or_create _ _ _ _ _ hres rfl) rfl
    case UPPER_FINAL =>
      exact fmtInv_set_or_create _ _ _ _ _ (fmtInv_set_or_create _ _ _ _ _ hres rfl) rfl
    case LOWER_R1_1 =>
      exact fmtInv_set_or_create _ _ _ _ _ hres rfl
    case LOWER_R1_2 =>
      exact fmtInv_set_or_create _ _ _ _ _ hres rfl
    case LOWER_R2_1 =>
      exact fmtInv_set_or_create _ _ _ _ _ hres rfl
    case LOWER_R2_2 =>
      exact fmtInv_set_or_create _ _ _ _ _ hres rfl
    case LOWER_SF =>
      exact fmtInv_set_or_create _ _ _ _ _ hres rfl
    case LOWER_FINAL =>
      exact fmtInv_set_or_create _ _ _ _ _ hres rfl
    case GRAND_FINAL =>
      exact hres

/-- A concretely seeded bracket used to witness the amended C8. -/
def c8wBracket : PlayoffBracket :=
  (emptyBracket.seed_teams
    [⟨"T1", "T1", 1, false⟩, ⟨"T2", "T2", 2, false⟩, ⟨"T3", "T3", 3, false⟩,
     ⟨"T4", "T4", 4, false⟩, ⟨"T5", "T5", 5, false⟩, ⟨"T6", "T6", 6, false⟩,
     ⟨"T7", "T7", 7, false⟩, ⟨"T8", "T8", 8, false⟩]).toOption.getD emptyBracket

/-- Witness for the amended C8 at the first seeded quarterfinal. -/
theorem c8_format_table_witness :
    (c8wBracket.matches' .UPPER_QF_1).map Match.format
      = some (expectedFmt .UPPER_QF_1) := by
  have h := c8_format_table c8wBracket
    (ReachableBracket.seeded
      [⟨"T1", "T1", 1, false⟩, ⟨"T2", "T2", 2, false⟩, ⟨"T3", "T3", 3, false⟩,
       ⟨"T4", "T4", 4, false⟩, ⟨"T5", "T5", 5, false⟩, ⟨"T6", "T6", 6, false⟩,
       ⟨"T7", "T7", 7, false⟩, ⟨"T8", "T8", 8, false⟩] c8wBracket rfl)
    .UPPER_QF_1
    ⟨⟨"T1", "T1", 1, false⟩, ⟨"T8", "T8", 8, false⟩, .BO3, "upper_qf", none⟩ rfl
  rw [show c8wBracket.matches' .UPPER_QF_1 = some
      ⟨⟨"T1", "T1", 1, false⟩, ⟨"T8", "T8", 8, false⟩, .BO3, "upper_qf", none⟩ from rfl]
  rw [Option.map_some']
  exact congrArg some h

/-- The bracket after quarterfinals 1 and 2 and the first lower-round-1 match,
with team T5 losing that lower-round-1 match. -/
def c8cexBracket : PlayoffBracket :=
  let b0 := (emptyBracket.seed_teams
    [⟨"T1", "T1", 1, false⟩, ⟨"T2", "T2", 2, false⟩, ⟨"T3", "T3", 3, false⟩,
     ⟨"T4", "T4", 4, false⟩, ⟨"T5", "T5", 5, false⟩, ⟨"T6", "T6", 6, false⟩,
     ⟨"T7", "T7", 7, false⟩, ⟨"T8", "T8", 8, false⟩]).toOption.getD emptyBracket
  let b1 := b0.record_result .UPPER_QF_1
    ⟨⟨"T1", "T1", 1, false⟩, ⟨"T8", "T8", 8, false⟩, 2, 0⟩
  let b2 := b1.record_result .UPPER_QF_2
    ⟨⟨"T4", "T4", 4, false⟩, ⟨"T5", "T5", 5, false⟩, 2, 1⟩
  b2.record_result .LOWER_R1_1
    ⟨⟨"T8", "T8", 8, false⟩, ⟨"T5", "T5", 5, false⟩, 2, 0⟩

/-- Counterexample to C8 as stated: the first lower-round-1 match has a
recorded result whose loser (id 5) is eliminated from the tournament, yet the
match was created best-of-3, not best-of-5. -/
theorem c8_counterexample :
    (c8cexBracket.matches' .LOWER_R1_1).map Match.format = some .BO3 ∧
    (c8cexBracket.results .LOWER_R1_1).map (fun r => r.loser.id) = some 5 ∧
    c8cexBracket.eliminated.any (fun x => decide (x.id = 5)) = true ∧
    MatchFormat.BO3 ≠ MatchFormat.BO5 := by
  exact ⟨rfl, rfl, rfl, by decide⟩

/-! ## C2: resolve_standings returns a win-sorted permutation -/

theorem resolve_two_way_perm (teams : List TeamStanding) :
    List.Perm (resolve_two_way teams).ordered_teams teams := by
  unfold resolve_two_way
  split
  · simp only []
    split_ifs <;> first | exact List.Perm.refl _ | exact List.Perm.swap _ _ _
  · exact List.Perm.refl _

theorem resolve_multi_way_perm (tied : List TeamStanding) :
    List.Perm (resolve_multi_way tied).ordered_teams tied := by
  unfold resolve_multi_way
  simp only []
  split_ifs <;> exact List.mergeSort_perm tied _

theorem h2h_resolve_perm (tied : List TeamStanding) (all : Standings) :
    List.Perm (HeadToHeadTiebreaker.resolve tied all).ordered_teams tied := by
  unfold HeadToHeadTiebreaker.resolve
  split_ifs
  · exact resolve_two_way_perm tied
  · exact resolve_multi_way_perm tied

theorem sov_resolve_perm (tied : List TeamStanding) (all : Standings) :
    List.Perm (StrengthOfVictoryTiebreaker.resolve tied all).ordered_teams tied := by
  unfold StrengthOfVictoryTiebreaker.resolve
  simp only []
  split_ifs <;> exact List.mergeSort_perm tied _

theorem coinflip_resolve_spec (tied : List TeamStanding) (rng : Rng) :
    (CoinflipTiebreaker.resolve tied rng).1.resolved = true ∧
    List.Perm (CoinflipTiebreaker.resolve tied rng).1.ordered_teams tied :=
  ⟨rfl, shuffle_perm rng tied⟩

theorem chain_resolve_spec (tied : List TeamStanding) (all : Standings) (rng : Rng) :
    (TiebreakerChain.resolve tied all rng).1.resolved = true ∧
    List.Perm (TiebreakerChain.resolve tied all rng).1.ordered_teams tied := by
  unfold TiebreakerChain.resolve
  by_cases h0 : tied.length ≤ 1
  · rw [if_pos h0]
    exact ⟨rfl, List.Perm.refl tied⟩
  · rw [if_neg h0]
    by_cases h1 : (HeadToHeadTiebreaker.resolve tied all).resolved = true
    · rw [if_pos h1]
      exact ⟨h1, h2h_resolve_perm tied all⟩
    · rw [if_neg h1]
      by_cases h2 : (StrengthOfVictoryTiebreaker.resolve
          (HeadToHeadTiebreaker.resolve tied all).ordered_teams all).resolved = true
      · rw [if_pos h2]
        exact ⟨h2, (sov_resolve_perm _ all).trans (h2h_resolve_perm tied all)⟩
      · rw [if_neg h2]
        refine ⟨(coinflip_resolve_spec _ rng).1, ?_⟩
        exact ((coinflip_resolve_spec _ rng).2.trans
          (sov_resolve_perm _ all)).trans (h2h_resolve_perm tied all)

theorem partition_perm {κ : Type} [DecidableEq κ] (key : TeamStanding → κ) :
    ∀ (ks : List κ) (l : List TeamStanding), ks.Nodup → (∀ x ∈ l, key x ∈ ks) →
      List.Perm l (ks.flatMap (fun k => l.filter (fun x => decide (key x = k)))) := by
  intro ks
  induction ks with
  | nil =>
    intro l _ hcov
    have hnil : l = [] := by
      cases l with
      | nil => rfl
      | cons x xs => exact absurd (hcov x (by simp)) (by simp)
    subst hnil
    simp
  | cons k ks ih =>
    intro l hnd hcov
    simp only [List.flatMap_cons]
    have hsplit := (List.filter_append_perm (fun x => decide (key x = k)) l).symm
    refine hsplit.trans (List.Perm.append_left _ ?_)
    have hcov' : ∀ x ∈ l.filter (fun x => !decide (key x = k)), key x ∈ ks := by
      intro x hx
      simp only [List.mem_filter, Bool.not_eq_true', decide_eq_false_iff_not] at hx
      have hmem := hcov x hx.1
      simp only [List.mem_cons] at hmem
      rcases hmem with h | h
      · exact absurd h hx.2
      · exact h
    have hmain := ih (l.filter (fun x => !decide (key x = k)))
      (List.nodup_cons.mp hnd).2 hcov'
    have hfix : ks.flatMap (fun k' =>
        (l.filter (fun x => !decide (key x = k))).filter
          (fun x => decide (key x = k')))
        = ks.flatMap (fun k' => l.filter (fun x => decide (key x = k'))) := by
      unfold List.flatMap
      congr 1
      apply List.map_congr_left
      intro k' hk'
      have hkk : k' ≠ k := by
        intro he
        subst he
        exact (List.nodup_cons.mp hnd).1 hk'
      rw [List.filter_filter]
      apply List.filter_congr
      intro a _
      by_cases hak : key a = k'
      · simp [hak, hkk]
      · simp [hak]
    rw [hfix] at hmain
    exact hmain

theorem resolveFold_perm (vals : List TeamStanding) (std : Standings) :
    ∀ (ws : List Nat) (acc : List TeamStanding) (rng : Rng),
      List.Perm ((ws.foldl (resolveStep vals std) (acc, rng)).1)
        (acc ++ ws.flatMap (fun w => vals.filter (fun s => decide (s.wins = w)))) := by
  intro ws
  induction ws with
  | nil => intro acc rng; simp
  | cons w rest ih =>
    intro acc rng
    simp only [List.foldl_cons, List.flatMap_cons]
    rw [← List.append_assoc]
    unfold resolveStep
    by_cases hl : (vals.filter (fun s => decide (s.wins = w))).length = 1
    · rw [if_pos hl]
      exact ih _ _
    · rw [if_neg hl]
      refine (ih _ _).trans ?_
      refine List.Perm.append_right _ ?_
      exact List.Perm.append_left _
        (chain_resolve_spec (vals.filter (fun s => decide (s.wins = w))) std rng).2

theorem pairwise_of_const_wins (X : List TeamStanding) (w : Nat)
    (h : ∀ x ∈ X, x.wins = w) :
    List.Pairwise (fun a b : TeamStanding => b.wins ≤ a.wins) X := by
  induction X with
  | nil => exact List.Pairwise.nil
  | cons x xs ih =>
    refine List.Pairwise.cons ?_ (ih fun y hy => h y (by simp [hy]))
    intro y hy
    rw [h y (by simp [hy]), h x (by simp)]

theorem resolveStep_block_wins (vals : List TeamStanding) (std : Standings)
    (acc : List TeamStanding × Rng) (w : Nat) :
    ∃ X, resolveStep vals std acc w = ((acc.1 ++ X, (resolveStep vals std acc w).2)) ∧
      ∀ x ∈ X, x.wins = w := by
  unfold resolveStep
  by_cases hl : (vals.filter (fun s => decide (s.wins = w))).length = 1
  · rw [if_pos hl]
    refine ⟨_, rfl, ?_⟩
    intro x hx
    simpa using (List.mem_filter.mp hx).2
  · rw [if_neg hl]
    refine ⟨_, rfl, ?_⟩
    intro x hx
    have hmem := (chain_resolve_spec
      (vals.filter (fun s => decide (s.wins = w))) std acc.2).2.mem_iff.mp hx
    simpa using (List.mem_filter.mp hmem).2

theorem resolveFold_sorted (vals : List TeamStanding) (std : Standings) :
    ∀ (ws : List Nat) (acc : List TeamStanding) (rng : Rng),
      List.Pairwise (fun a b : Nat => b < a) ws →
      List.Pairwise (fun a b : TeamStanding => b.wins ≤ a.wins) acc →
      (∀ a ∈ acc, ∀ w ∈ ws, w ≤ a.wins) →
      List.Pairwise (fun a b : TeamStanding => b.wins ≤ a.wins)
        ((ws.foldl (resolveStep vals std) (acc, rng)).1) := by
  intro ws
  induction ws with
  | nil => intro acc rng _ hacc _; exact hacc
  | cons w rest ih =>
    intro acc rng hws hacc hcross
    simp only [List.foldl_cons]
    obtain ⟨X, hstep, hX⟩ := resolveStep_block_wins vals std (acc, rng) w
    rw [hstep]
    obtain ⟨hw_rest, hws_rest⟩ := List.pairwise_cons.mp hws
    refine ih _ _ hws_rest ?_ ?_
    · rw [List.pairwise_append]
      refine ⟨hacc, pairwise_of_const_wins X w hX, ?_⟩
      intro a ha x hx
      rw [hX x hx]
      exact hcross a ha w (by simp)
    · intro a ha w' hw'
      rcases List.mem_append.mp ha with h | h
      · exact hcross a h w' (by simp [hw'])
      · rw [hX a h]
        exact Nat.le_of_lt (hw_rest w' hw')

/-- C2: for every tournament state and random source, resolve_standings
returns a permutation of all standings in which no team is preceded by a team
with strictly fewer wins, and the tiebreaker chain always reports a resolved
order that permutes its input group. -/
theorem c2_resolve_standings (t : Tournament) (rng : Rng) :
    List.Perm (t.resolve_standings rng).1 t.standings.values ∧
    List.Pairwise (fun a b : TeamStanding => b.wins ≤ a.wins)
      (t.resolve_standings rng).1 ∧
    (∀ (group : List TeamStanding) (all : Standings) (r : Rng),
      (TiebreakerChain.resolve group all r).1.resolved = true ∧
      List.Perm (TiebreakerChain.resolve group all r).1.ordered_teams group) := by
  have hsorted := List.sorted_insertionSort (fun a b : Nat => b ≤ a)
    ((t.standings.values.map (fun s => s.wins)).dedup)
  have hperm_ws := List.perm_insertionSort (fun a b : Nat => b ≤ a)
    ((t.standings.values.map (fun s => s.wins)).dedup)
  have hnodup_ws : (((t.standings.values.map (fun s => s.wins)).dedup).insertionSort
      (fun a b : Nat => b ≤ a)).Nodup :=
    hperm_ws.symm.nodup (List.nodup_dedup _)
  have hstrict : List.Pairwise (fun a b : Nat => b < a)
      (((t.standings.values.map (fun s => s.wins)).dedup).insertionSort
        (fun a b : Nat => b ≤ a)) := by
    have hand := List.Pairwise.and hsorted hnodup_ws
    exact hand.imp (fun h => Nat.lt_of_le_of_ne h.1 (fun he => h.2 he.symm))
  have hcov : ∀ x ∈ t.standings.values, x.wins ∈
      (((t.standings.values.map (fun s => s.wins)).dedup).insertionSort
        (fun a b : Nat => b ≤ a)) := by
    intro x hx
    rw [hperm_ws.mem_iff, List.mem_dedup]
    exact List.mem_map.mpr ⟨x, hx, rfl⟩
  refine ⟨?_, ?_, fun g a r => chain_resolve_spec g a r⟩
  · have hfold := resolveFold_perm t.standings.values t.standings
      (((t.standings.values.map (fun s => s.wins)).dedup).insertionSort
        (fun a b : Nat => b ≤ a)) [] rng
    have hpart := partition_perm (fun s : TeamStanding => s.wins)
      (((t.standings.values.map (fun s => s.wins)).dedup).insertionSort
        (fun a b : Nat => b ≤ a)) t.standings.values hnodup_ws hcov
    exact (hfold.trans (by simpa using hpart.symm))
  · exact resolveFold_sorted t.standings.values t.standings _ [] rng hstrict
      List.Pairwise.nil (by simp)

/-! ## Monte Carlo engine (simulation/engine.py) -/

/-- Configuration for the Monte Carlo run. -/
structure SimulationConfig where
  num_simulations : Nat := 10000
  seed : Option Nat := none
deriving DecidableEq, Repr

/-- Outcome of a single trial. Python dicts and sets of names are modelled as
insertion-ordered association lists and lists. -/
structure SimulationOutcome where
  regular_season_rank : List (String × Nat) := []
  made_playoffs : List String := []
  playoff_seed : List (String × Nat) := []
  final_placement : List (String × Nat) := []
  champion : Option String := none
deriving DecidableEq, Repr

/-- Aggregated results over all trials, probabilities as rationals. -/
structure SimulationResults where
  num_simulations : Nat
  playoff_probability : List (String × ℚ) := []
  championship_probability : List (String × ℚ) := []
  regular_season_distribution : List (String × List (Nat × ℚ)) := []
  seeding_distribution : List (String × List (Nat × ℚ)) := []
  playoff_placement_distribution : List (String × List (Nat × ℚ)) := []
deriving DecidableEq, Repr

/-- The engine state after __init__. -/
structure SimulationEngine where
  tournament : Tournament
  win_rates : WinRateMatrix
  config : SimulationConfig
  rng0 : Rng

/-- SimulationEngine.__init__: the top-level source is random.Random(seed);
seeding from the operating system when no seed is configured is modelled by
the extra entropy argument, which is ignored whenever a seed is given. -/
def SimulationEngine.init (tournament : Tournament) (win_rates : WinRateMatrix)
    (config : SimulationConfig) (entropy : Nat) : SimulationEngine :=
  { tournament := tournament, win_rates := win_rates, config := config,
    rng0 := mkRandom (config.seed.getD entropy) }

/-- WinRateMatrix.uniform. -/
def WinRateMatrix.uniform (rate : ℚ := 1/2) : WinRateMatrix :=
  { matrix := [], default_rate := rate }

/-- The body of the best-of-N game loop, as structural recursion on a fuel
bound: the source's while loop runs while both sides are below k, and each
iteration decreases (k - a) + (k - b) by one, so any fuel of at least that
many steps reproduces the loop exactly (once the guard fails, the result no
longer depends on the remaining fuel). -/
def playGamesGo (p : ℚ) (k : Nat) : Nat → Nat → Nat → Rng → Nat × Nat × Rng
  | 0, a, b, rng => (a, b, rng)
  | fuel + 1, a, b, rng =>
    if a < k ∧ b < k then
      let pr := rng.random
      if pr.1 < p then playGamesGo p k fuel (a + 1) b pr.2
      else playGamesGo p k fuel a (b + 1) pr.2
    else (a, b, rng)

/-- The best-of-N game loop of simulate_match: play single games until one
side reaches k wins. -/
def playGames (p : ℚ) (k : Nat) (a b : Nat) (rng : Rng) : Nat × Nat × Rng :=
  playGamesGo p k ((k - a) + (k - b)) a b rng

/-- simulate_match: one draw for a best-of-1, otherwise the game loop; the
winner is the side with the higher score. -/
def simulate_match (wr : WinRateMatrix) (m : Match) (rng : Rng) : MatchResult × Rng :=
  let prob_a_wins := wr.get_win_probability m.team_a.id m.team_b.id
  match m.format with
  | .BO1 =>
    let pr := rng.random
    if pr.1 < prob_a_wins then (⟨m.team_a, m.team_b, 1, 0⟩, pr.2)
    else (⟨m.team_b, m.team_a, 1, 0⟩, pr.2)
  | f =>
    let k := f.games_to_win
    let g := playGames prob_a_wins k 0 0 rng
    if g.1 > g.2.1 then (⟨m.team_a, m.team_b, g.1, g.2.1⟩, g.2.2)
    else (⟨m.team_b, m.team_a, g.2.1, g.1⟩, g.2.2)

/-- The fixed bracket traversal order of simulate_playoffs. -/
def matchOrder : List BracketPosition :=
  [.UPPER_QF_1, .UPPER_QF_2, .UPPER_QF_3, .UPPER_QF_4,
   .LOWER_R1_1, .LOWER_R1_2,
   .UPPER_SF_1, .UPPER_SF_2,
   .LOWER_R2_1, .LOWER_R2_2,
   .UPPER_FINAL, .LOWER_SF, .LOWER_FINAL, .GRAND_FINAL]

/-- One position of the simulate_playoffs loop: play the match when it exists,
has no recorded result, and both slots hold distinct teams. -/
def procPos (wr : WinRateMatrix) (st : PlayoffBracket × Rng)
    (position : BracketPosition) : PlayoffBracket × Rng :=
  match st.1.matches' position with
  | some m =>
    if st.1.results position = none then
      if m.team_a.id ≠ m.team_b.id then
        let pr := simulate_match wr m st.2
        (st.1.record_result position pr.1, pr.2)
      else st
    else st
  | none => st

/-- simulate_playoffs: play the bracket in the fixed order. -/
def simulate_playoffs (wr : WinRateMatrix) (bracket : PlayoffBracket) (rng : Rng) :
    PlayoffBracket × Rng :=
  matchOrder.foldl (procPos wr) (bracket, rng)

/-- The round-robin phase of run_single_simulation: simulate every unplayed
match in schedule order, recording each result into the standings. -/
def simRoundRobin (wr : WinRateMatrix) :
    List Match → Standings → Rng → Except String (List Match × Standings × Rng)
  | [], s, rng => .ok ([], s, rng)
  | m :: rest, s, rng =>
    if m.is_completed then
      match simRoundRobin wr rest s rng with
      | .ok (ms, s', rng') => .ok (m :: ms, s', rng')
      | .error e => .error e
    else
      let pr := simulate_match wr m rng
      match s.record_match_result pr.1.winner pr.1.loser with
      | .ok s1 =>
        match simRoundRobin wr rest s1 pr.2 with
        | .ok (ms, s', rng') => .ok ({ m with result := some pr.1 } :: ms, s', rng')
        | .error e => .error e
      | .error e => .error e

/-- Python set.add for strings. -/
def addStr (l : List String) (s : String) : List String :=
  if l.any (fun x => decide (x = s)) then l else l ++ [s]

/-- run_single_simulation: copy the tournament, finish the round robin,
resolve standings with the trial source, seed the top 8, play the bracket,
and extract the compact outcome. -/
def run_single_simulation (t : Tournament) (wr : WinRateMatrix) (seed : Nat) :
    Except String SimulationOutcome :=
  let rng := mkRandom seed
  let tc := t.copy
  match simRoundRobin wr tc.round_robin_matches tc.standings rng with
  | .error e => .error e
  | .ok (ms, s1, rng1) =>
    let tc1 : Tournament := { tc with standings := s1, round_robin_matches := ms }
    let fs := tc1.resolve_standings rng1
    let final_standings := fs.1
    let regular_season_rank := (final_standings.enum).foldl
      (fun acc p => setA acc p.2.team.name (p.1 + 1)) []
    let playoff_teams := final_standings.take 8
    let made_playoffs := playoff_teams.foldl (fun acc st => addStr acc st.team.name) []
    let playoff_seed := (playoff_teams.enum).foldl
      (fun acc p => setA acc p.2.team.name (p.1 + 1)) []
    match tc1.create_playoff_bracket playoff_teams with
    | .error e => .error e
    | .ok bracket0 =>
      let sim := simulate_playoffs wr bracket0 fs.2
      let bracket := sim.1
      let fp1 := match bracket.champion with
        | some c => setA ([] : List (String × Nat)) c.name 1
        | none => []
      let fp2 := match bracket.runner_up with
        | some c => setA fp1 c.name 2
        | none => fp1
      let fp3 := match bracket.third_place with
        | some c => setA fp2 c.name 3
        | none => fp2
      let fp4 := match bracket.fourth_place with
        | some c => setA fp3 c.name 4
        | none => fp3
      let fpFinal := (bracket.eliminated.foldl
        (fun (acc : List (String × Nat) × Nat) tm =>
          if (getA acc.1 tm.name).isNone then (setA acc.1 tm.name acc.2, acc.2 + 1)
          else acc) (fp4, 5)).1
      .ok { regular_season_rank := regular_season_rank,
            made_playoffs := made_playoffs,
            playoff_seed := playoff_seed,
            final_placement := fpFinal,
            champion := bracket.champion.map Team.name }

/-- The per-trial sub-seeds: one randint(0, 2^31) draw per trial. -/
def drawSeeds : Nat → Rng → List Nat × Rng
  | 0, rng => ([], rng)
  | n + 1, rng =>
    let pr := rng.randint 2147483648
    let rest := drawSeeds n pr.2
    (pr.1 :: rest.1, rest.2)

/-- Run every trial in order, propagating the first failure. -/
def collectOutcomes (t : Tournament) (wr : WinRateMatrix) :
    List Nat → Except String (List SimulationOutcome)
  | [] => .ok []
  | s :: rest =>
    match run_single_simulation t wr s with
    | .ok o =>
      match collectOutcomes t wr rest with
      | .ok os => .ok (o :: os)
      | .error e => .error e
    | .error e => .error e

/-- defaultdict(int) increment. -/
def bump (l : List (String × Nat)) (k : String) : List (String × Nat) :=
  setA l k ((getA l k).getD 0 + 1)

/-- defaultdict(lambda: defaultdict(int)) increment. -/
def bump2 (l : List (String × List (Nat × Nat))) (k : String) (j : Nat) :
    List (String × List (Nat × Nat)) :=
  let inner := (getA l k).getD []
  setA l k (setA inner j ((getA inner j).getD 0 + 1))

/-- _aggregate_results: fold outcomes into integer counters, then divide every
counter by the trial count. -/
def aggregate_results (outcomes : List SimulationOutcome) : SimulationResults :=
  let n := outcomes.length
  let playoff_counts := outcomes.foldl (fun acc o =>
    o.made_playoffs.foldl (fun a name => bump a name) acc) []
  let championship_counts := outcomes.foldl (fun acc o =>
    match o.champion with
    | some c => bump acc c
    | none => acc) []
  let regular_season_counts := outcomes.foldl (fun acc o =>
    o.regular_season_rank.foldl (fun a p => bump2 a p.1 p.2) acc) []
  let seeding_counts := outcomes.foldl (fun acc o =>
    o.playoff_seed.foldl (fun a p => bump2 a p.1 p.2) acc) []
  let placement_counts := outcomes.foldl (fun acc o =>
    o.final_placement.foldl (fun a p => bump2 a p.1 p.2) acc) []
  { num_simulations := n,
    playoff_probability := playoff_counts.map (fun p => (p.1, (p.2 : ℚ) / n)),
    championship_probability := championship_counts.map (fun p => (p.1, (p.2 : ℚ) / n)),
    regular_season_distribution := regular_season_counts.map
      (fun p => (p.1, p.2.map (fun q => (q.1, (q.2 : ℚ) / n)))),
    seeding_distribution := seeding_counts.map
      (fun p => (p.1, p.2.map (fun q => (q.1, (q.2 : ℚ) / n)))),
    playoff_placement_distribution := placement_counts.map
      (fun p => (p.1, p.2.map (fun q => (q.1, (q.2 : ℚ) / n)))) }

/-- run: draw one sub-seed per trial from the engine's top-level source,
execute every trial, aggregate. -/
def SimulationEngine.run (e : SimulationEngine) : Except String SimulationResults :=
  let sd := drawSeeds e.config.num_simulations e.rng0
  match collectOutcomes e.tournament e.win_rates sd.1 with
  | .ok outcomes => .ok (aggregate_results outcomes)
  | .error err => .error err

/-- C1: with a fixed configured seed, two independently constructed engines
over the same snapshot, win rates and trial count produce identical aggregated
results, whatever entropy the surrounding system would have supplied. -/
theorem c1_run_deterministic (t : Tournament) (wr : WinRateMatrix)
    (n s e1 e2 : Nat) :
    (SimulationEngine.init t wr ⟨n, some s⟩ e1).run
      = (SimulationEngine.init t wr ⟨n, some s⟩ e2).run := rfl

/-! ## C3: the always-team-a bracket run -/

theorem playGamesGo_one (k : Nat) (hk : 0 < k) :
    ∀ (n fuel a : Nat) (rng : Rng), a + n = k → n ≤ fuel →
      playGamesGo 1 k fuel a 0 rng = (k, 0, ⟨rng.stream, rng.idx + n⟩) := by
  intro n
  induction n with
  | zero =>
    intro fuel a rng ha _
    have hak : a = k := by omega
    subst hak
    cases fuel with
    | zero => rfl
    | succ f =>
      unfold playGamesGo
      rw [if_neg (by omega)]
      rfl
  | succ n ih =>
    intro fuel a rng ha hle
    cases fuel with
    | zero => omega
    | succ f =>
      unfold playGamesGo
      rw [if_pos ⟨by omega, hk⟩]
      simp only []
      rw [if_pos (Rng.random_lt_one rng)]
      rw [ih f (a + 1) _ (by omega) (by omega)]
      have hidx : (rng.random).2.idx + n = rng.idx + (n + 1) := by
        simp [Rng.random, Rng.next]
        omega
      rw [show ((rng.random).2.stream : Nat → Nat) = rng.stream from rfl, hidx]

theorem playGames_one (k : Nat) (hk : 0 < k) :
    ∀ (n a : Nat) (rng : Rng), a + n = k →
      playGames 1 k a 0 rng = (k, 0, ⟨rng.stream, rng.idx + n⟩) := by
  intro n a rng ha
  unfold playGames
  exact playGamesGo_one k hk n ((k - a) + (k - 0)) a rng ha (by omega)

theorem simulate_match_one (m : Match) (rng : Rng) :
    simulate_match (WinRateMatrix.uniform 1) m rng
      = (⟨m.team_a, m.team_b, m.format.games_to_win, 0⟩,
         ⟨rng.stream, rng.idx + m.format.games_to_win⟩) := by
  unfold simulate_match
  have hprob : (WinRateMatrix.uniform 1).get_win_probability m.team_a.id m.team_b.id
      = 1 := rfl
  cases hf : m.format with
  | BO1 =>
    simp only [hf, hprob]
    rw [if_pos (Rng.random_lt_one rng)]
    rfl
  | BO3 =>
    simp only [hf, hprob, MatchFormat.games_to_win]
    rw [playGames_one 2 (by norm_num) 2 0 rng rfl]
    rfl
  | BO5 =>
    simp only [hf, hprob, MatchFormat.games_to_win]
    rw [playGames_one 3 (by norm_num) 3 0 rng rfl]
    rfl

/-- C3: seeding eight teams with distinct ids and playing the whole bracket
with outcomes in which team_a always wins (probability one for the first
slot) records a result at every one of the 14 positions, crowns the seed-1
team, and completes the bracket. -/
theorem c3_always_team_a_champion
    (s1 s2 s3 s4 s5 s6 s7 s8 : Team) (rng : Rng) (b0 : PlayoffBracket)
    (hnd : ([s1, s2, s3, s4, s5, s6, s7, s8].map Team.id).Nodup)
    (hseed : emptyBracket.seed_teams [s1, s2, s3, s4, s5, s6, s7, s8] = .ok b0) :
    (∀ p, ((simulate_playoffs (WinRateMatrix.uniform 1) b0 rng).1.results p).isSome
        = true) ∧
    (simulate_playoffs (WinRateMatrix.uniform 1) b0 rng).1.champion = some s1 ∧
    (simulate_playoffs (WinRateMatrix.uniform 1) b0 rng).1.is_complete = true := by
  simp only [List.map_cons, List.map_nil, List.nodup_cons, List.mem_cons,
    List.not_mem_nil, List.mem_singleton, not_or, List.nodup_nil, and_true,
    not_false_eq_true] at hnd
  obtain ⟨⟨h12, h13, h14, h15, h16, h17, h18⟩, ⟨h23, h24, h25, h26, h27, h28⟩,
    ⟨h34, h35, h36, h37, h38⟩, ⟨h45, h46, h47, h48⟩, ⟨h56, h57, h58⟩,
    ⟨h67, h68⟩, h78⟩ := hnd
  unfold PlayoffBracket.seed_teams at hseed
  simp only [Except.ok.injEq] at hseed
  subst hseed
  simp [simulate_playoffs, matchOrder, List.foldl_cons, List.foldl_nil, procPos,
    simulate_match_one, PlayoffBracket.record_result,
    PlayoffBracket.update_bracket_progression, PlayoffBracket.set_or_create_match,
    PlayoffBracket.is_complete, addToSet, emptyBracket,
    h12, h13, h14, h15, h16, h17, h18, h23, h24, h25, h26, h27, h28,
    h34, h35, h36, h37, h38, h45, h46, h47, h48, h56, h57, h58, h67, h68, h78,
    Ne.symm h12, Ne.symm h13, Ne.symm h14, Ne.symm h15, Ne.symm h16, Ne.symm h17,
    Ne.symm h18, Ne.symm h23, Ne.symm h24, Ne.symm h25, Ne.symm h26, Ne.symm h27,
    Ne.symm h28, Ne.symm h34, Ne.symm h35, Ne.symm h36, Ne.symm h37, Ne.symm h38,
    Ne.symm h45, Ne.symm h46, Ne.symm h47, Ne.symm h48, Ne.symm h56, Ne.symm h57,
    Ne.symm h58, Ne.symm h67, Ne.symm h68, Ne.symm h78]
  intro p
  cases p <;> rfl

/-! ## C9: the bracket always completes on distinct teams, any outcomes -/

theorem simulate_match_teams (wr : WinRateMatrix) (m : Match) (rng : Rng) :
    ((simulate_match wr m rng).1.winner = m.team_a ∧
      (simulate_match wr m rng).1.loser = m.team_b) ∨
    ((simulate_match wr m rng).1.winner = m.team_b ∧
      (simulate_match wr m rng).1.loser = m.team_a) := by
  unfold simulate_match
  cases m.format <;> simp only [] <;> split_ifs <;> simp

/-- Processing a playable position with any win-rate table and random source
records some result whose winner and loser are the two teams of the match, in
one of the two orders. -/
theorem procPos_play (wr : WinRateMatrix) (b : PlayoffBracket) (rng : Rng)
    (pos : BracketPosition) (x y : Team) (fmt : MatchFormat) (stg : String)
    (hm : b.matches' pos = some ⟨x, y, fmt, stg, none⟩)
    (hr : b.results pos = none) (hxy : x.id ≠ y.id) :
    ∃ (w l : Team) (ws ls : Nat) (rng' : Rng),
      ((w = x ∧ l = y) ∨ (w = y ∧ l = x)) ∧
      procPos wr (b, rng) pos = (b.record_result pos ⟨w, l, ws, ls⟩, rng') := by
  unfold procPos
  simp only []
  rw [hm]
  simp only []
  rw [if_pos hr, if_pos hxy]
  refine ⟨(simulate_match wr ⟨x, y, fmt, stg, none⟩ rng).1.winner,
    (simulate_match wr ⟨x, y, fmt, stg, none⟩ rng).1.loser,
    (simulate_match wr ⟨x, y, fmt, stg, none⟩ rng).1.winner_score,
    (simulate_match wr ⟨x, y, fmt, stg, none⟩ rng).1.loser_score,
    (simulate_match wr ⟨x, y, fmt, stg, none⟩ rng).2, ?_, rfl⟩
  simpa using simulate_match_teams wr ⟨x, y, fmt, stg, none⟩ rng

/-- Moving a pair of teams known to be some ordering of (a, b) across a
multiset cons. -/
theorem pair_cons_eq {w l a b : Team}
    (h : (w = a ∧ l = b) ∨ (w = b ∧ l = a)) (R : Multiset Team) :
    (w ::ₘ l ::ₘ R) = (a ::ₘ b ::ₘ R) := by
  rcases h with ⟨rfl, rfl⟩ | ⟨rfl, rfl⟩
  · rfl
  · exact Multiset.cons_swap _ _ R

theorem pair_mem_left {w l a b : Team}
    (h : (w = a ∧ l = b) ∨ (w = b ∧ l = a)) : w = a ∨ w = b := by
  rcases h with ⟨rfl, -⟩ | ⟨rfl, -⟩
  · exact Or.inl rfl
  · exact Or.inr rfl

theorem pair_mem_right {w l a b : Team}
    (h : (w = a ∧ l = b) ∨ (w = b ∧ l = a)) : l = a ∨ l = b := by
  rcases h with ⟨-, rfl⟩ | ⟨-, rfl⟩
  · exact Or.inr rfl
  · exact Or.inl rfl


theorem pair_ne_within {w l a b : Team}
    (h : (w = a ∧ l = b) ∨ (w = b ∧ l = a)) (hab : a.id ≠ b.id) :
    w.id ≠ l.id := by
  rcases h with ⟨rfl, rfl⟩ | ⟨rfl, rfl⟩
  · exact hab
  · exact Ne.symm hab

theorem mem2_ne {x y a b c d : Team}
    (hx : x = a ∨ x = b) (hy : y = c ∨ y = d)
    (hac : a.id ≠ c.id) (had : a.id ≠ d.id)
    (hbc : b.id ≠ c.id) (hbd : b.id ≠ d.id) :
    x.id ≠ y.id := by
  rcases hx with rfl | rfl <;> rcases hy with rfl | rfl <;> assumption

theorem mem2_ne_of {x y a b : Team}
    (hx : x = a ∨ x = b) (ha : a.id ≠ y.id) (hb : b.id ≠ y.id) :
    x.id ≠ y.id := by
  rcases hx with rfl | rfl <;> assumption

theorem mem2_of_mem2 {x a b s t u v : Team}
    (hx : x = a ∨ x = b) (ha : a = s ∨ a = t) (hb : b = u ∨ b = v) :
    x = s ∨ x = t ∨ x = u ∨ x = v := by
  rcases hx with rfl | rfl
  · rcases ha with rfl | rfl
    · exact Or.inl rfl
    · exact Or.inr (Or.inl rfl)
  · rcases hb with rfl | rfl
    · exact Or.inr (Or.inr (Or.inl rfl))
    · exact Or.inr (Or.inr (Or.inr rfl))

theorem mem4_of_mem2 {x a b s t u v : Team}
    (hx : x = a ∨ x = b)
    (ha : a = s ∨ a = t ∨ a = u ∨ a = v)
    (hb : b = s ∨ b = t ∨ b = u ∨ b = v) :
    x = s ∨ x = t ∨ x = u ∨ x = v := by
  rcases hx with rfl | rfl
  · exact ha
  · exact hb

theorem mem4_ne {x y a b c d e f g k : Team}
    (hx : x = a ∨ x = b ∨ x = c ∨ x = d)
    (hy : y = e ∨ y = f ∨ y = g ∨ y = k)
    (n1 : a.id ≠ e.id) (n2 : a.id ≠ f.id) (n3 : a.id ≠ g.id) (n4 : a.id ≠ k.id)
    (n5 : b.id ≠ e.id) (n6 : b.id ≠ f.id) (n7 : b.id ≠ g.id) (n8 : b.id ≠ k.id)
    (n9 : c.id ≠ e.id) (n10 : c.id ≠ f.id) (n11 : c.id ≠ g.id) (n12 : c.id ≠ k.id)
    (n13 : d.id ≠ e.id) (n14 : d.id ≠ f.id) (n15 : d.id ≠ g.id) (n16 : d.id ≠ k.id) :
    x.id ≠ y.id := by
  rcases hx with rfl | rfl | rfl | rfl <;> rcases hy with rfl | rfl | rfl | rfl <;> assumption

set_option maxHeartbeats 1600000 in
/-- With eight distinct-id teams seeded, simulate_playoffs completes the
bracket for every win-rate table and random source: all four named placements
are set, the eliminated list is exactly the seven non-champions in order of
elimination, and the eight outcome teams are a permutation of the seeds. -/
theorem bracket_sim_spec (wr : WinRateMatrix) (rng : Rng)
    (s1 s2 s3 s4 s5 s6 s7 s8 : Team) (b0 : PlayoffBracket)
    (hseed : emptyBracket.seed_teams [s1, s2, s3, s4, s5, s6, s7, s8] = .ok b0)
    (hnd : ([s1, s2, s3, s4, s5, s6, s7, s8].map Team.id).Nodup) :
    ∃ (c ru th fo e1 e2 e3 e4 : Team),
      (simulate_playoffs wr b0 rng).1.champion = some c ∧
      (simulate_playoffs wr b0 rng).1.runner_up = some ru ∧
      (simulate_playoffs wr b0 rng).1.third_place = some th ∧
      (simulate_playoffs wr b0 rng).1.fourth_place = some fo ∧
      (simulate_playoffs wr b0 rng).1.eliminated = [e1, e2, e3, e4, fo, th, ru] ∧
      (([c, ru, th, fo, e1, e2, e3, e4] : List Team) : Multiset Team)
        = (([s1, s2, s3, s4, s5, s6, s7, s8] : List Team) : Multiset Team) := by
  have hnd' := hnd
  simp only [List.map_cons, List.map_nil, List.nodup_cons, List.mem_cons,
    List.not_mem_nil, List.mem_singleton, not_or, List.nodup_nil, and_true,
    not_false_eq_true] at hnd'
  obtain ⟨⟨h12, h13, h14, h15, h16, h17, h18⟩, ⟨h23, h24, h25, h26, h27, h28⟩,
    ⟨h34, h35, h36, h37, h38⟩, ⟨h45, h46, h47, h48⟩, ⟨h56, h57, h58⟩,
    ⟨h67, h68⟩, h78⟩ := hnd'
  unfold PlayoffBracket.seed_teams at hseed
  simp only [Except.ok.injEq] at hseed
  subst hseed
  obtain ⟨r1, hr1⟩ : ∃ x, simulate_match wr ⟨s1, s8, .BO3, "upper_qf", none⟩ rng = x := ⟨_, rfl⟩
  obtain ⟨w1, hw1⟩ : ∃ x, r1.1.winner = x := ⟨_, rfl⟩
  obtain ⟨l1, hl1⟩ : ∃ x, r1.1.loser = x := ⟨_, rfl⟩
  obtain ⟨R2, hR2⟩ : ∃ x, r1.2 = x := ⟨_, rfl⟩
  obtain ⟨r2, hr2⟩ : ∃ x, simulate_match wr ⟨s4, s5, .BO3, "upper_qf", none⟩ R2 = x := ⟨_, rfl⟩
  obtain ⟨w2, hw2⟩ : ∃ x, r2.1.winner = x := ⟨_, rfl⟩
  obtain ⟨l2, hl2⟩ : ∃ x, r2.1.loser = x := ⟨_, rfl⟩
  obtain ⟨R3, hR3⟩ : ∃ x, r2.2 = x := ⟨_, rfl⟩
  obtain ⟨r3, hr3⟩ : ∃ x, simulate_match wr ⟨s2, s7, .BO3, "upper_qf", none⟩ R3 = x := ⟨_, rfl⟩
  obtain ⟨w3, hw3⟩ : ∃ x, r3.1.winner = x := ⟨_, rfl⟩
  obtain ⟨l3, hl3⟩ : ∃ x, r3.1.loser = x := ⟨_, rfl⟩
  obtain ⟨R4, hR4⟩ : ∃ x, r3.2 = x := ⟨_, rfl⟩
  obtain ⟨r4, hr4⟩ : ∃ x, simulate_match wr ⟨s3, s6, .BO3, "upper_qf", none⟩ R4 = x := ⟨_, rfl⟩
  obtain ⟨w4, hw4⟩ : ∃ x, r4.1.winner = x := ⟨_, rfl⟩
  obtain ⟨l4, hl4⟩ : ∃ x, r4.1.loser = x := ⟨_, rfl⟩
  obtain ⟨R5, hR5⟩ : ∃ x, r4.2 = x := ⟨_, rfl⟩
  obtain ⟨r5, hr5⟩ : ∃ x, simulate_match wr ⟨l1, l2, .BO3, "lower_r1_1", none⟩ R5 = x := ⟨_, rfl⟩
  obtain ⟨w5, hw5⟩ : ∃ x, r5.1.winner = x := ⟨_, rfl⟩
  obtain ⟨l5, hl5⟩ : ∃ x, r5.1.loser = x := ⟨_, rfl⟩
  obtain ⟨R6, hR6⟩ : ∃ x, r5.2 = x := ⟨_, rfl⟩
  obtain ⟨r6, hr6⟩ : ∃ x, simulate_match wr ⟨l3, l4, .BO3, "lower_r1_2", none⟩ R6 = x := ⟨_, rfl⟩
  obtain ⟨w6, hw6⟩ : ∃ x, r6.1.winner = x := ⟨_, rfl⟩
  obtain ⟨l6, hl6⟩ : ∃ x, r6.1.loser = x := ⟨_, rfl⟩
  obtain ⟨R7, hR7⟩ : ∃ x, r6.2 = x := ⟨_, rfl⟩
  obtain ⟨r7, hr7⟩ : ∃ x, simulate_match wr ⟨w1, w2, .BO3, "upper_sf_1", none⟩ R7 = x := ⟨_, rfl⟩
  obtain ⟨w7, hw7⟩ : ∃ x, r7.1.winner = x := ⟨_, rfl⟩
  obtain ⟨l7, hl7⟩ : ∃ x, r7.1.loser = x := ⟨_, rfl⟩
  obtain ⟨R8, hR8⟩ : ∃ x, r7.2 = x := ⟨_, rfl⟩
  obtain ⟨r8, hr8⟩ : ∃ x, simulate_match wr ⟨w3, w4, .BO3, "upper_sf_2", none⟩ R8 = x := ⟨_, rfl⟩
  obtain ⟨w8, hw8⟩ : ∃ x, r8.1.winner = x := ⟨_, rfl⟩
  obtain ⟨l8, hl8⟩ : ∃ x, r8.1.loser = x := ⟨_, rfl⟩
  obtain ⟨R9, hR9⟩ : ∃ x, r8.2 = x := ⟨_, rfl⟩
  obtain ⟨r9, hr9⟩ : ∃ x, simulate_match wr ⟨w5, l7, .BO3, "lower_r2_1", none⟩ R9 = x := ⟨_, rfl⟩
  obtain ⟨w9, hw9⟩ : ∃ x, r9.1.winner = x := ⟨_, rfl⟩
  obtain ⟨l9, hl9⟩ : ∃ x, r9.1.loser = x := ⟨_, rfl⟩
  obtain ⟨R10, hR10⟩ : ∃ x, r9.2 = x := ⟨_, rfl⟩
  obtain ⟨r10, hr10⟩ : ∃ x, simulate_match wr ⟨w6, l8, .BO3, "lower_r2_2", none⟩ R10 = x := ⟨_, rfl⟩
  obtain ⟨w10, hw10⟩ : ∃ x, r10.1.winner = x := ⟨_, rfl⟩
  obtain ⟨l10, hl10⟩ : ∃ x, r10.1.loser = x := ⟨_, rfl⟩
  obtain ⟨R11, hR11⟩ : ∃ x, r10.2 = x := ⟨_, rfl⟩
  obtain ⟨r11, hr11⟩ : ∃ x, simulate_match wr ⟨w7, w8, .BO5, "upper_final", none⟩ R11 = x := ⟨_, rfl⟩
  obtain ⟨w11, hw11⟩ : ∃ x, r11.1.winner = x := ⟨_, rfl⟩
  obtain ⟨l11, hl11⟩ : ∃ x, r11.1.loser = x := ⟨_, rfl⟩
  obtain ⟨R12, hR12⟩ : ∃ x, r11.2 = x := ⟨_, rfl⟩
  obtain ⟨r12, hr12⟩ : ∃ x, simulate_match wr ⟨w9, w10, .BO5, "lower_sf", none⟩ R12 = x := ⟨_, rfl⟩
  obtain ⟨w12, hw12⟩ : ∃ x, r12.1.winner = x := ⟨_, rfl⟩
  obtain ⟨l12, hl12⟩ : ∃ x, r12.1.loser = x := ⟨_, rfl⟩
  obtain ⟨R13, hR13⟩ : ∃ x, r12.2 = x := ⟨_, rfl⟩
  obtain ⟨r13, hr13⟩ : ∃ x, simulate_match wr ⟨w12, l11, .BO5, "lower_final", none⟩ R13 = x := ⟨_, rfl⟩
  obtain ⟨w13, hw13⟩ : ∃ x, r13.1.winner = x := ⟨_, rfl⟩
  obtain ⟨l13, hl13⟩ : ∃ x, r13.1.loser = x := ⟨_, rfl⟩
  obtain ⟨R14, hR14⟩ : ∃ x, r13.2 = x := ⟨_, rfl⟩
  obtain ⟨r14, hr14⟩ : ∃ x, simulate_match wr ⟨w11, w13, .BO5, "grand_final", none⟩ R14 = x := ⟨_, rfl⟩
  obtain ⟨w14, hw14⟩ : ∃ x, r14.1.winner = x := ⟨_, rfl⟩
  obtain ⟨l14, hl14⟩ : ∃ x, r14.1.loser = x := ⟨_, rfl⟩
  have hp1 : (w1 = s1 ∧ l1 = s8) ∨ (w1 = s8 ∧ l1 = s1) := by
    have h := simulate_match_teams wr ⟨s1, s8, .BO3, "upper_qf", none⟩ rng
    rw [hr1, hw1, hl1] at h
    simpa using h
  have hp2 : (w2 = s4 ∧ l2 = s5) ∨ (w2 = s5 ∧ l2 = s4) := by
    have h := simulate_match_teams wr ⟨s4, s5, .BO3, "upper_qf", none⟩ R2
    rw [hr2, hw2, hl2] at h
    simpa using h
  have hp3 : (w3 = s2 ∧ l3 = s7) ∨ (w3 = s7 ∧ l3 = s2) := by
    have h := simulate_match_teams wr ⟨s2, s7, .BO3, "upper_qf", none⟩ R3
    rw [hr3, hw3, hl3] at h
    simpa using h
  have hp4 : (w4 = s3 ∧ l4 = s6) ∨ (w4 = s6 ∧ l4 = s3) := by
    have h := simulate_match_teams wr ⟨s3, s6, .BO3, "upper_qf", none⟩ R4
    rw [hr4, hw4, hl4] at h
    simpa using h
  have hp5 : (w5 = l1 ∧ l5 = l2) ∨ (w5 = l2 ∧ l5 = l1) := by
    have h := simulate_match_teams wr ⟨l1, l2, .BO3, "lower_r1_1", none⟩ R5
    rw [hr5, hw5, hl5] at h
    simpa using h
  have hp6 : (w6 = l3 ∧ l6 = l4) ∨ (w6 = l4 ∧ l6 = l3) := by
    have h := simulate_match_teams wr ⟨l3, l4, .BO3, "lower_r1_2", none⟩ R6
    rw [hr6, hw6, hl6] at h
    simpa using h
  have hp7 : (w7 = w1 ∧ l7 = w2) ∨ (w7 = w2 ∧ l7 = w1) := by
    have h := simulate_match_teams wr ⟨w1, w2, .BO3, "upper_sf_1", none⟩ R7
    rw [hr7, hw7, hl7] at h
    simpa using h
  have hp8 : (w8 = w3 ∧ l8 = w4) ∨ (w8 = w4 ∧ l8 = w3) := by
    have h := simulate_match_teams wr ⟨w3, w4, .BO3, "upper_sf_2", none⟩ R8
    rw [hr8, hw8, hl8] at h
    simpa using h
  have hp9 : (w9 = w5 ∧ l9 = l7) ∨ (w9 = l7 ∧ l9 = w5) := by
    have h := simulate_match_teams wr ⟨w5, l7, .BO3, "lower_r2_1", none⟩ R9
    rw [hr9, hw9, hl9] at h
    simpa using h
  have hp10 : (w10 = w6 ∧ l10 = l8) ∨ (w10 = l8 ∧ l10 = w6) := by
    have h := simulate_match_teams wr ⟨w6, l8, .BO3, "lower_r2_2", none⟩ R10
    rw [hr10, hw10, hl10] at h
    simpa using h
  have hp11 : (w11 = w7 ∧ l11 = w8) ∨ (w11 = w8 ∧ l11 = w7) := by
    have h := simulate_match_teams wr ⟨w7, w8, .BO5, "upper_final", none⟩ R11
    rw [hr11, hw11, hl11] at h
    simpa using h
  have hp12 : (w12 = w9 ∧ l12 = w10) ∨ (w12 = w10 ∧ l12 = w9) := by
    have h := simulate_match_teams wr ⟨w9, w10, .BO5, "lower_sf", none⟩ R12
    rw [hr12, hw12, hl12] at h
    simpa using h
  have hp13 : (w13 = w12 ∧ l13 = l11) ∨ (w13 = l11 ∧ l13 = w12) := by
    have h := simulate_match_teams wr ⟨w12, l11, .BO5, "lower_final", none⟩ R13
    rw [hr13, hw13, hl13] at h
    simpa using h
  have hp14 : (w14 = w11 ∧ l14 = w13) ∨ (w14 = w13 ∧ l14 = w11) := by
    have h := simulate_match_teams wr ⟨w11, w13, .BO5, "grand_final", none⟩ R14
    rw [hr14, hw14, hl14] at h
    simpa using h
  have nA_w1l1 : w1.id ≠ l1.id := pair_ne_within hp1 h18
  have nA_w2l2 : w2.id ≠ l2.id := pair_ne_within hp2 h45
  have nB_w3l3 : w3.id ≠ l3.id := pair_ne_within hp3 h27
  have nB_w4l4 : w4.id ≠ l4.id := pair_ne_within hp4 h36
  have hne7 : w1.id ≠ w2.id :=
    mem2_ne (pair_mem_left hp1) (pair_mem_left hp2) h14 h15 (Ne.symm h48) (Ne.symm h58)
  have hne5 : l1.id ≠ l2.id :=
    mem2_ne (pair_mem_right hp1) (pair_mem_right hp2) h14 h15 (Ne.symm h48) (Ne.symm h58)
  have nA_w1l2 : w1.id ≠ l2.id :=
    mem2_ne (pair_mem_left hp1) (pair_mem_right hp2) h14 h15 (Ne.symm h48) (Ne.symm h58)
  have nA_l1w2 : l1.id ≠ w2.id :=
    mem2_ne (pair_mem_right hp1) (pair_mem_left hp2) h14 h15 (Ne.symm h48) (Ne.symm h58)
  have hne8 : w3.id ≠ w4.id :=
    mem2_ne (pair_mem_left hp3) (pair_mem_left hp4) h23 h26 (Ne.symm h37) (Ne.symm h67)
  have hne6 : l3.id ≠ l4.id :=
    mem2_ne (pair_mem_right hp3) (pair_mem_right hp4) h23 h26 (Ne.symm h37) (Ne.symm h67)
  have nB_w3l4 : w3.id ≠ l4.id :=
    mem2_ne (pair_mem_left hp3) (pair_mem_right hp4) h23 h26 (Ne.symm h37) (Ne.symm h67)
  have nB_l3w4 : l3.id ≠ w4.id :=
    mem2_ne (pair_mem_right hp3) (pair_mem_left hp4) h23 h26 (Ne.symm h37) (Ne.symm h67)
  have hne9 : w5.id ≠ l7.id :=
    mem2_ne (pair_mem_left hp5) (pair_mem_right hp7)
      (Ne.symm nA_w1l1) nA_l1w2 (Ne.symm nA_w1l2) (Ne.symm nA_w2l2)
  have hne10 : w6.id ≠ l8.id :=
    mem2_ne (pair_mem_left hp6) (pair_mem_right hp8)
      (Ne.symm nB_w3l3) nB_l3w4 (Ne.symm nB_w3l4) (Ne.symm nB_w4l4)
  have crossAB : ∀ x y : Team, (x = s1 ∨ x = s8 ∨ x = s4 ∨ x = s5) →
      (y = s2 ∨ y = s7 ∨ y = s3 ∨ y = s6) → x.id ≠ y.id := fun x y hx hy =>
    mem4_ne hx hy h12 h17 h13 h16 (Ne.symm h28) (Ne.symm h78) (Ne.symm h38) (Ne.symm h68)
      (Ne.symm h24) h47 (Ne.symm h34) h46 (Ne.symm h25) h57 (Ne.symm h35) h56
  have mA_w7 : w7 = s1 ∨ w7 = s8 ∨ w7 = s4 ∨ w7 = s5 :=
    mem2_of_mem2 (pair_mem_left hp7) (pair_mem_left hp1) (pair_mem_left hp2)
  have mA_w5 : w5 = s1 ∨ w5 = s8 ∨ w5 = s4 ∨ w5 = s5 :=
    mem2_of_mem2 (pair_mem_left hp5) (pair_mem_right hp1) (pair_mem_right hp2)
  have mA_l7 : l7 = s1 ∨ l7 = s8 ∨ l7 = s4 ∨ l7 = s5 :=
    mem2_of_mem2 (pair_mem_right hp7) (pair_mem_left hp1) (pair_mem_left hp2)
  have mA_w9 : w9 = s1 ∨ w9 = s8 ∨ w9 = s4 ∨ w9 = s5 :=
    mem4_of_mem2 (pair_mem_left hp9) mA_w5 mA_l7
  have mB_w8 : w8 = s2 ∨ w8 = s7 ∨ w8 = s3 ∨ w8 = s6 :=
    mem2_of_mem2 (pair_mem_left hp8) (pair_mem_left hp3) (pair_mem_left hp4)
  have mB_w6 : w6 = s2 ∨ w6 = s7 ∨ w6 = s3 ∨ w6 = s6 :=
    mem2_of_mem2 (pair_mem_left hp6) (pair_mem_right hp3) (pair_mem_right hp4)
  have mB_l8 : l8 = s2 ∨ l8 = s7 ∨ l8 = s3 ∨ l8 = s6 :=
    mem2_of_mem2 (pair_mem_right hp8) (pair_mem_left hp3) (pair_mem_left hp4)
  have mB_w10 : w10 = s2 ∨ w10 = s7 ∨ w10 = s3 ∨ w10 = s6 :=
    mem4_of_mem2 (pair_mem_left hp10) mB_w6 mB_l8
  have hne11 : w7.id ≠ w8.id := crossAB w7 w8 mA_w7 mB_w8
  have hne12 : w9.id ≠ w10.id := crossAB w9 w10 mA_w9 mB_w10
  have hne_w5_w7 : w5.id ≠ w7.id :=
    mem2_ne (pair_mem_left hp5) (pair_mem_left hp7)
      (Ne.symm nA_w1l1) nA_l1w2 (Ne.symm nA_w1l2) (Ne.symm nA_w2l2)
  have hne_w9_w7 : w9.id ≠ w7.id :=
    mem2_ne_of (pair_mem_left hp9) hne_w5_w7 (Ne.symm (pair_ne_within hp7 hne7))
  have hne_w6_w8 : w6.id ≠ w8.id :=
    mem2_ne (pair_mem_left hp6) (pair_mem_left hp8)
      (Ne.symm nB_w3l3) nB_l3w4 (Ne.symm nB_w3l4) (Ne.symm nB_w4l4)
  have hne_w10_w8 : w10.id ≠ w8.id :=
    mem2_ne_of (pair_mem_left hp10) hne_w6_w8 (Ne.symm (pair_ne_within hp8 hne8))
  have hne_w9_w8 : w9.id ≠ w8.id := crossAB w9 w8 mA_w9 mB_w8
  have hne_w10_w7 : w10.id ≠ w7.id := Ne.symm (crossAB w7 w10 mA_w7 mB_w10)
  have hne13 : w12.id ≠ l11.id :=
    mem2_ne (pair_mem_left hp12) (pair_mem_right hp11)
      hne_w9_w7 hne_w9_w8 hne_w10_w7 hne_w10_w8
  have hne_w11_w12 : w11.id ≠ w12.id :=
    mem2_ne (pair_mem_left hp11) (pair_mem_left hp12)
      (Ne.symm hne_w9_w7) (Ne.symm hne_w10_w7) (Ne.symm hne_w9_w8) (Ne.symm hne_w10_w8)
  have hne14 : w11.id ≠ w13.id :=
    Ne.symm (mem2_ne_of (pair_mem_left hp13)
      (Ne.symm hne_w11_w12) (Ne.symm (pair_ne_within hp11 hne11)))
  have hmul : (([w14, l14, l13, l12, l9, l10, l5, l6] : List Team) : Multiset Team)
      = (([s1, s2, s3, s4, s5, s6, s7, s8] : List Team) : Multiset Team) := by
    simp only [← Multiset.cons_coe, Multiset.coe_nil]
    rw [pair_cons_eq hp14]
    rw [pair_cons_eq hp13]
    rw [Multiset.cons_swap w12 l11]
    rw [pair_cons_eq hp11]
    rw [pair_cons_eq hp12]
    rw [Multiset.cons_swap w10 l9]
    rw [pair_cons_eq hp9]
    rw [pair_cons_eq hp10]
    rw [Multiset.cons_swap w5 l7]
    rw [Multiset.cons_swap w8 l7]
    rw [pair_cons_eq hp7]
    rw [Multiset.cons_swap w6 l8]
    rw [Multiset.cons_swap w5 l8]
    rw [pair_cons_eq hp8]
    rw [Multiset.cons_swap w6 l5]
    rw [pair_cons_eq hp5]
    rw [pair_cons_eq hp6]
    rw [Multiset.cons_swap w4 l1]
    rw [Multiset.cons_swap w3 l1]
    rw [Multiset.cons_swap w2 l1]
    rw [pair_cons_eq hp1]
    rw [Multiset.cons_swap w4 l2]
    rw [Multiset.cons_swap w3 l2]
    rw [pair_cons_eq hp2]
    rw [Multiset.cons_swap w4 l3]
    rw [pair_cons_eq hp3]
    rw [pair_cons_eq hp4]
    rw [Multiset.cons_swap s5 s2]
    rw [Multiset.cons_swap s4 s2]
    rw [Multiset.cons_swap s8 s2]
    rw [Multiset.cons_swap s7 s3]
    rw [Multiset.cons_swap s5 s3]
    rw [Multiset.cons_swap s4 s3]
    rw [Multiset.cons_swap s8 s3]
    rw [Multiset.cons_swap s8 s4]
    rw [Multiset.cons_swap s8 s5]
    rw [Multiset.cons_swap s7 s6]
    rw [Multiset.cons_swap s8 s6]
    rw [Multiset.cons_swap s8 s7]
  have hperm : List.Perm [w14, l14, l13, l12, l9, l10, l5, l6]
      [s1, s2, s3, s4, s5, s6, s7, s8] := Multiset.coe_eq_coe.mp hmul
  have hnodupL : (([w14, l14, l13, l12, l9, l10, l5, l6] : List Team).map Team.id).Nodup :=
    (hperm.map Team.id).symm.nodup hnd
  have hndL := hnodupL
  simp only [List.map_cons, List.map_nil, List.nodup_cons, List.mem_cons,
    List.not_mem_nil, List.mem_singleton, not_or, List.nodup_nil, and_true,
    not_false_eq_true] at hndL
  obtain ⟨⟨q12, q13, q14, q15, q16, q17, q18⟩, ⟨q23, q24, q25, q26, q27, q28⟩,
    ⟨q34, q35, q36, q37, q38⟩, ⟨q45, q46, q47, q48⟩, ⟨q56, q57, q58⟩,
    ⟨q67, q68⟩, q78⟩ := hndL
  unfold simulate_playoffs matchOrder
  simp [List.foldl_cons, List.foldl_nil, procPos, PlayoffBracket.record_result,
    PlayoffBracket.update_bracket_progression, PlayoffBracket.set_or_create_match,
    BracketPosition.lowerName, addToSet, emptyBracket,
    hr1, hw1, hl1, hr2, hw2, hl2,
    hr3, hw3, hl3, hr4, hw4, hl4,
    hr5, hw5, hl5, hr6, hw6, hl6,
    hr7, hw7, hl7, hr8, hw8, hl8,
    hr9, hw9, hl9, hr10, hw10, hl10,
    hr11, hw11, hl11, hr12, hw12, hl12,
    hr13, hw13, hl13, hr14, hw14, hl14,
    hR2, hR3, hR4, hR5, hR6,
    hR7, hR8, hR9, hR10, hR11, hR12,
    hR13, hR14,
    hne5, hne6, hne7, hne8, hne9, hne10, hne11, hne12, hne13, hne14,
    Ne.symm hne5, Ne.symm hne6, Ne.symm hne7, Ne.symm hne8, Ne.symm hne9,
    Ne.symm hne10, Ne.symm hne11, Ne.symm hne12, Ne.symm hne13, Ne.symm hne14,
    h12, h13, h14, h15, h16, h17, h18, h23, h24, h25, h26, h27, h28, h34, h35, h36, h37, h38, h45, h46, h47, h48, h56, h57, h58, h67, h68, h78,
    Ne.symm h12, Ne.symm h13, Ne.symm h14, Ne.symm h15, Ne.symm h16, Ne.symm h17, Ne.symm h18, Ne.symm h23, Ne.symm h24, Ne.symm h25, Ne.symm h26, Ne.symm h27, Ne.symm h28, Ne.symm h34, Ne.symm h35, Ne.symm h36, Ne.symm h37, Ne.symm h38, Ne.symm h45, Ne.symm h46, Ne.symm h47, Ne.symm h48, Ne.symm h56, Ne.symm h57, Ne.symm h58, Ne.symm h67, Ne.symm h68, Ne.symm h78,
    q12, q13, q14, q15, q16, q17, q18, q23, q24, q25, q26, q27, q28, q34, q35, q36, q37, q38, q45, q46, q47, q48, q56, q57, q58, q67, q68, q78,
    Ne.symm q12, Ne.symm q13, Ne.symm q14, Ne.symm q15, Ne.symm q16, Ne.symm q17, Ne.symm q18, Ne.symm q23, Ne.symm q24, Ne.symm q25, Ne.symm q26, Ne.symm q27, Ne.symm q28, Ne.symm q34, Ne.symm q35, Ne.symm q36, Ne.symm q37, Ne.symm q38, Ne.symm q45, Ne.symm q46, Ne.symm q47, Ne.symm q48, Ne.symm q56, Ne.symm q57, Ne.symm q58, Ne.symm q67, Ne.symm q68, Ne.symm q78]
  refine ⟨l5, l6, l9, l10, ⟨rfl, rfl, rfl, rfl⟩, ?_⟩
  exact (((((@List.perm_append_comm Team [l5, l6] [l9, l10]).cons l12).cons l13).cons
    l14).cons w14).trans (Multiset.coe_eq_coe.mp hmul)

/-! ## C9: final placements of a completed trial (engine.run_single_simulation) -/

/-- Replacing a present key by a value with the same f-image leaves the
f-image of the association list unchanged. -/
theorem setA_map_keep {κ ν μ : Type} [DecidableEq κ] (f : ν → μ) (k : κ) (v w : ν)
    (hfv : f v = f w) :
    ∀ (l : List (κ × ν)), getA l k = some w →
      (setA l k v).map (fun p => (p.1, f p.2)) = l.map (fun p => (p.1, f p.2)) := by
  intro l
  induction l with
  | nil => intro hw; simp [getA] at hw
  | cons p t ih =>
    obtain ⟨k0, v0⟩ := p
    intro hw
    by_cases hp : k0 = k
    · simp [getA, hp] at hw
      subst hw
      subst hp
      simp [setA, hfv]
    · simp [getA, hp] at hw
      simp [setA, hp, ih hw]

/-- Recording a match result never changes the keys or the stored team of any
standing. -/
theorem record_match_result_teams (s : Standings) (w l : Team) (s' : Standings)
    (h : s.record_match_result w l = .ok s') :
    s'.standings.map (fun p => (p.1, p.2.team)) =
      s.standings.map (fun p => (p.1, p.2.team)) := by
  unfold Standings.record_match_result at h
  split at h
  · simp at h
  · rename_i hcond
    simp only [Except.ok.injEq] at h
    subst h
    rcases hgw : getA s.standings w.id with _ | ws0
    · exact absurd (Or.inl (by simp [Standings.get, hgw])) hcond
    · simp only [Standings.get] at hcond ⊢
      have hmid : ∃ u, getA (setA s.standings w.id
          (((getA s.standings w.id).getD { team := w }).record_win l.id)) l.id
            = some u := by
        by_cases hwl : w.id = l.id
        · refine ⟨((getA s.standings w.id).getD { team := w }).record_win l.id, ?_⟩
          rw [← hwl]
          exact getA_setA_self _ _ _
        · rcases hgl : getA s.standings l.id with _ | ls0
          · exact absurd (Or.inr (by simp [hgl])) hcond
          · refine ⟨ls0, ?_⟩
            rw [getA_setA_ne _ _ _ _ hwl]
            exact hgl
      obtain ⟨u, hu⟩ := hmid
      refine (setA_map_keep (fun st => st.team) l.id _ u ?_ _ hu).trans
        (setA_map_keep (fun st => st.team) w.id _ ws0 ?_ s.standings hgw)
      · simp [hu, TeamStanding.record_loss]
      · simp [hgw, TeamStanding.record_win]

/-- The round-robin phase never changes the keys or the stored team of any
standing. -/
theorem simRoundRobin_teams (wr : WinRateMatrix) :
    ∀ (ml : List Match) (s : Standings) (rng : Rng)
      (res : List Match × Standings × Rng),
      simRoundRobin wr ml s rng = .ok res →
      res.2.1.standings.map (fun p => (p.1, p.2.team)) =
        s.standings.map (fun p => (p.1, p.2.team)) := by
  intro ml
  induction ml with
  | nil =>
    intro s rng res h
    simp only [simRoundRobin, Except.ok.injEq] at h
    subst h
    rfl
  | cons m rest ih =>
    intro s rng res h
    simp only [simRoundRobin] at h
    split at h
    · split at h
      · rename_i ms s1 rng1 heq
        simp only [Except.ok.injEq] at h
        subst h
        exact ih s rng (ms, s1, rng1) heq
      · simp at h
    · split at h
      · rename_i s1 heq
        split at h
        · rename_i ms s2 rng2 heq2
          simp only [Except.ok.injEq] at h
          subst h
          exact (ih s1 _ (ms, s2, rng2) heq2).trans
            (record_match_result_teams s _ _ s1 heq)
        · simp at h
      · simp at h

/-- resolve_standings always returns a permutation of the standing values. -/
theorem resolve_standings_perm (t : Tournament) (rng : Rng) :
    List.Perm (t.resolve_standings rng).1 t.standings.values := by
  have hperm_ws := List.perm_insertionSort (fun a b : Nat => b ≤ a)
    ((t.standings.values.map (fun s => s.wins)).dedup)
  have hnodup_ws : (((t.standings.values.map (fun s => s.wins)).dedup).insertionSort
      (fun a b : Nat => b ≤ a)).Nodup :=
    hperm_ws.symm.nodup (List.nodup_dedup _)
  have hcov : ∀ x ∈ t.standings.values, x.wins ∈
      (((t.standings.values.map (fun s => s.wins)).dedup).insertionSort
        (fun a b : Nat => b ≤ a)) := by
    intro x hx
    rw [hperm_ws.mem_iff, List.mem_dedup]
    exact List.mem_map.mpr ⟨x, hx, rfl⟩
  have hfold := resolveFold_perm t.standings.values t.standings
    (((t.standings.values.map (fun s => s.wins)).dedup).insertionSort
      (fun a b : Nat => b ≤ a)) [] rng
  have hpart := partition_perm (fun s : TeamStanding => s.wins)
    (((t.standings.values.map (fun s => s.wins)).dedup).insertionSort
      (fun a b : Nat => b ≤ a)) t.standings.values hnodup_ws hcov
  exact (hfold.trans (by simpa using hpart.symm))

/-- Splitting the head off a list of known minimal length. -/
theorem exists_cons_of_le {α : Type} (l : List α) (n : Nat) (h : n + 1 ≤ l.length) :
    ∃ a t, l = a :: t ∧ n ≤ t.length := by
  cases l with
  | nil => simp at h
  | cons a t => exact ⟨a, t, rfl, by simpa using h⟩

set_option maxHeartbeats 1600000 in
/-- C9 (amended): for a snapshot with at least eight standings whose teams
have pairwise-distinct ids and pairwise-distinct names, a successful trial
produces a final_placement that is exactly the champion at 1, the runner-up
at 2, third at 3, fourth at 4, and the remaining four eliminated teams at
5, 6, 7, 8 in eliminated-set iteration order; its keys are pairwise distinct
and are exactly the names of the eight playoff teams. The distinct-name
hypothesis is necessary: final_placement is keyed by team name, and a
duplicate name collapses two placements into one entry (see the
counterexample). -/
theorem c9_final_placement (t : Tournament) (wr : WinRateMatrix) (seed : Nat)
    (out : SimulationOutcome)
    (hids : (t.standings.values.map (fun st => st.team.id)).Nodup)
    (hnames : (t.standings.values.map (fun st => st.team.name)).Nodup)
    (hlen : 8 ≤ t.standings.values.length)
    (hok : run_single_simulation t wr seed = .ok out) :
    ∃ c ru th fo e1 e2 e3 e4 : Team,
      out.champion = some c.name ∧
      out.final_placement = [(c.name, 1), (ru.name, 2), (th.name, 3), (fo.name, 4),
        (e1.name, 5), (e2.name, 6), (e3.name, 7), (e4.name, 8)] ∧
      (out.final_placement.map Prod.fst).Nodup ∧
      List.Perm (out.final_placement.map Prod.fst) (out.playoff_seed.map Prod.fst) := by
  have hcopy : t.copy.standings = t.standings := by
    have hne : ¬t.standings.standings.length = 0 := by
      have h8 := hlen
      simp only [Standings.values, List.length_map] at h8
      omega
    simp [Tournament.copy, hne]
  simp only [run_single_simulation] at hok
  rcases hrr : simRoundRobin wr t.copy.round_robin_matches t.copy.standings
      (mkRandom seed) with e | ⟨ms, s1, rng1⟩
  · simp only [hrr] at hok
    exact absurd hok (by simp)
  · simp only [hrr] at hok
    have hteams : s1.standings.map (fun p => (p.1, p.2.team)) =
        t.standings.standings.map (fun p => (p.1, p.2.team)) := by
      have h0 := simRoundRobin_teams wr t.copy.round_robin_matches t.copy.standings
        (mkRandom seed) (ms, s1, rng1) hrr
      simpa [hcopy] using h0
    have hnames1 : s1.values.map (fun st => st.team.name) =
        t.standings.values.map (fun st => st.team.name) := by
      have h0 := congrArg (List.map (fun q : Nat × Team => q.2.name)) hteams
      simpa [Standings.values, List.map_map, Function.comp] using h0
    have hids1 : s1.values.map (fun st => st.team.id) =
        t.standings.values.map (fun st => st.team.id) := by
      have h0 := congrArg (List.map (fun q : Nat × Team => q.2.id)) hteams
      simpa [Standings.values, List.map_map, Function.comp] using h0
    have hlen1 : s1.values.length = t.standings.values.length := by
      have h0 := congrArg List.length hnames1
      simpa using h0
    have hperm_fs : List.Perm
        (Tournament.resolve_standings
          { t.copy with standings := s1, round_robin_matches := ms } rng1).1
        s1.values := by
      have h0 := resolve_standings_perm
        { t.copy with standings := s1, round_robin_matches := ms } rng1
      simpa using h0
    have hlen_fs : 8 ≤ (Tournament.resolve_standings
        { t.copy with standings := s1, round_robin_matches := ms } rng1).1.length := by
      rw [hperm_fs.length_eq]
      rw [show s1.values.length = t.standings.values.length from hlen1]
      exact hlen
    obtain ⟨a1, t1, he1, hl1⟩ := exists_cons_of_le _ 7 hlen_fs
    obtain ⟨a2, t2, he2, hl2⟩ := exists_cons_of_le t1 6 hl1
    obtain ⟨a3, t3, he3, hl3⟩ := exists_cons_of_le t2 5 hl2
    obtain ⟨a4, t4, he4, hl4⟩ := exists_cons_of_le t3 4 hl3
    obtain ⟨a5, t5, he5, hl5⟩ := exists_cons_of_le t4 3 hl4
    obtain ⟨a6, t6, he6, hl6⟩ := exists_cons_of_le t5 2 hl5
    obtain ⟨a7, t7, he7, hl7⟩ := exists_cons_of_le t6 1 hl6
    obtain ⟨a8, t8, he8, hl8⟩ := exists_cons_of_le t7 0 hl7
    have hfs8 : (Tournament.resolve_standings
        { t.copy with standings := s1, round_robin_matches := ms } rng1).1 =
        a1 :: a2 :: a3 :: a4 :: a5 :: a6 :: a7 :: a8 :: t8 := by
      rw [he1, he2, he3, he4, he5, he6, he7, he8]
    rw [hfs8] at hok
    have htake : List.take 8 (a1 :: a2 :: a3 :: a4 :: a5 :: a6 :: a7 :: a8 :: t8) =
        [a1, a2, a3, a4, a5, a6, a7, a8] := rfl
    rw [htake] at hok
    rcases hcb : Tournament.create_playoff_bracket
        { t.copy with standings := s1, round_robin_matches := ms }
        [a1, a2, a3, a4, a5, a6, a7, a8] with e | b0
    · rw [hcb] at hok
      simp at hok
    · simp only [hcb] at hok
      simp only [Except.ok.injEq] at hok
      subst hok
      have hseed : emptyBracket.seed_teams
          [a1.team, a2.team, a3.team, a4.team, a5.team, a6.team, a7.team, a8.team]
            = .ok b0 := by
        have h0 := hcb
        unfold Tournament.create_playoff_bracket at h0
        rw [if_neg (by simp)] at h0
        have hmap : (List.take 8 [a1, a2, a3, a4, a5, a6, a7, a8]).map
            (fun s => s.team) = [a1.team, a2.team, a3.team, a4.team, a5.team,
              a6.team, a7.team, a8.team] := rfl
        rw [hmap] at h0
        exact h0
      have hsplit8 : (a1 :: a2 :: a3 :: a4 :: a5 :: a6 :: a7 :: a8 :: t8) =
          [a1, a2, a3, a4, a5, a6, a7, a8] ++ t8 := rfl
      have hfsids : ((a1 :: a2 :: a3 :: a4 :: a5 :: a6 :: a7 :: a8 :: t8).map
          (fun st => st.team.id)).Nodup := by
        rw [← hfs8]
        refine ((hperm_fs.map (fun st => st.team.id)).nodup_iff).mpr ?_
        rw [hids1]
        exact hids
      have hfsnames : ((a1 :: a2 :: a3 :: a4 :: a5 :: a6 :: a7 :: a8 :: t8).map
          (fun st => st.team.name)).Nodup := by
        rw [← hfs8]
        refine ((hperm_fs.map (fun st => st.team.name)).nodup_iff).mpr ?_
        rw [hnames1]
        exact hnames
      have hnd8 : ([a1.team, a2.team, a3.team, a4.team, a5.team, a6.team, a7.team,
          a8.team].map Team.id).Nodup := by
        rw [hsplit8, List.map_append] at hfsids
        have h0 := List.Nodup.sublist (List.sublist_append_left _ _) hfsids
        simpa using h0
      have hnames8 : ([a1.team, a2.team, a3.team, a4.team, a5.team, a6.team,
          a7.team, a8.team].map Team.name).Nodup := by
        rw [hsplit8, List.map_append] at hfsnames
        have h0 := List.Nodup.sublist (List.sublist_append_left _ _) hfsnames
        simpa using h0
      obtain ⟨c, ru, th, fo, e1, e2, e3, e4, hch, hru, hth, hfo, helim, hmulti⟩ :=
        bracket_sim_spec wr (Tournament.resolve_standings
            { t.copy with standings := s1, round_robin_matches := ms } rng1).2
          a1.team a2.team a3.team a4.team a5.team a6.team a7.team a8.team b0
          hseed hnd8
      have hpermT : List.Perm [c, ru, th, fo, e1, e2, e3, e4]
          [a1.team, a2.team, a3.team, a4.team, a5.team, a6.team, a7.team, a8.team] :=
        Multiset.coe_eq_coe.mp hmulti
      have hpermN : List.Perm ([c.name, ru.name, th.name, fo.name, e1.name, e2.name,
          e3.name, e4.name] : List String) [a1.team.name, a2.team.name, a3.team.name,
          a4.team.name, a5.team.name, a6.team.name, a7.team.name, a8.team.name] := by
        have h0 := hpermT.map Team.name
        simpa using h0
      have hnC : ([c.name, ru.name, th.name, fo.name, e1.name, e2.name, e3.name,
          e4.name] : List String).Nodup := by
        refine (hpermN.nodup_iff).mpr ?_
        simpa using hnames8
      have hnA : ([a1.team.name, a2.team.name, a3.team.name, a4.team.name,
          a5.team.name, a6.team.name, a7.team.name, a8.team.name] :
            List String).Nodup := by
        simpa using hnames8
      simp only [List.nodup_cons, List.mem_cons, List.not_mem_nil, not_or,
        List.mem_singleton, List.nodup_nil, and_true, not_false_eq_true] at hnC hnA
      obtain ⟨⟨n12, n13, n14, n15, n16, n17, n18⟩, ⟨n23, n24, n25, n26, n27, n28⟩,
        ⟨n34, n35, n36, n37, n38⟩, ⟨n45, n46, n47, n48⟩, ⟨n56, n57, n58⟩,
        ⟨n67, n68⟩, n78⟩ := hnC
      obtain ⟨⟨m12, m13, m14, m15, m16, m17, m18⟩, ⟨m23, m24, m25, m26, m27, m28⟩,
        ⟨m34, m35, m36, m37, m38⟩, ⟨m45, m46, m47, m48⟩, ⟨m56, m57, m58⟩,
        ⟨m67, m68⟩, m78⟩ := hnA
      have henum : ([a1, a2, a3, a4, a5, a6, a7, a8] : List TeamStanding).enum =
          [(0, a1), (1, a2), (2, a3), (3, a4), (4, a5), (5, a6), (6, a7), (7, a8)] :=
        rfl
      refine ⟨c, ru, th, fo, e1, e2, e3, e4, ?_, ?_, ?_, ?_⟩
      · simp [hch]
      · simp [hch, hru, hth, hfo, helim, setA, getA, List.foldl,
          n12, n13, n14, n15, n16, n17, n18, n23, n24, n25, n26, n27, n28, n34, n35, n36, n37, n38, n45, n46, n47, n48, n56, n57, n58, n67, n68, n78,
          Ne.symm n12, Ne.symm n13, Ne.symm n14, Ne.symm n15, Ne.symm n16, Ne.symm n17, Ne.symm n18, Ne.symm n23, Ne.symm n24, Ne.symm n25, Ne.symm n26, Ne.symm n27, Ne.symm n28, Ne.symm n34, Ne.symm n35, Ne.symm n36, Ne.symm n37, Ne.symm n38, Ne.symm n45, Ne.symm n46, Ne.symm n47, Ne.symm n48, Ne.symm n56, Ne.symm n57, Ne.symm n58, Ne.symm n67, Ne.symm n68, Ne.symm n78]
      · simp [hch, hru, hth, hfo, helim, setA, getA, List.foldl,
          n12, n13, n14, n15, n16, n17, n18, n23, n24, n25, n26, n27, n28, n34, n35, n36, n37, n38, n45, n46, n47, n48, n56, n57, n58, n67, n68, n78,
          Ne.symm n12, Ne.symm n13, Ne.symm n14, Ne.symm n15, Ne.symm n16, Ne.symm n17, Ne.symm n18, Ne.symm n23, Ne.symm n24, Ne.symm n25, Ne.symm n26, Ne.symm n27, Ne.symm n28, Ne.symm n34, Ne.symm n35, Ne.symm n36, Ne.symm n37, Ne.symm n38, Ne.symm n45, Ne.symm n46, Ne.symm n47, Ne.symm n48, Ne.symm n56, Ne.symm n57, Ne.symm n58, Ne.symm n67, Ne.symm n68, Ne.symm n78]
      · have hfinal := hpermN
        simp [hch, hru, hth, hfo, helim, setA, getA, List.foldl, henum,
          n12, n13, n14, n15, n16, n17, n18, n23, n24, n25, n26, n27, n28, n34, n35, n36, n37, n38, n45, n46, n47, n48, n56, n57, n58, n67, n68, n78,
          Ne.symm n12, Ne.symm n13, Ne.symm n14, Ne.symm n15, Ne.symm n16, Ne.symm n17, Ne.symm n18, Ne.symm n23, Ne.symm n24, Ne.symm n25, Ne.symm n26, Ne.symm n27, Ne.symm n28, Ne.symm n34, Ne.symm n35, Ne.symm n36, Ne.symm n37, Ne.symm n38, Ne.symm n45, Ne.symm n46, Ne.symm n47, Ne.symm n48, Ne.symm n56, Ne.symm n57, Ne.symm n58, Ne.symm n67, Ne.symm n68, Ne.symm n78,
          m12, m13, m14, m15, m16, m17, m18, m23, m24, m25, m26, m27, m28, m34, m35, m36, m37, m38, m45, m46, m47, m48, m56, m57, m58, m67, m68, m78,
          Ne.symm m12, Ne.symm m13, Ne.symm m14, Ne.symm m15, Ne.symm m16, Ne.symm m17, Ne.symm m18, Ne.symm m23, Ne.symm m24, Ne.symm m25, Ne.symm m26, Ne.symm m27, Ne.symm m28, Ne.symm m34, Ne.symm m35, Ne.symm m36, Ne.symm m37, Ne.symm m38, Ne.symm m45, Ne.symm m46, Ne.symm m47, Ne.symm m48, Ne.symm m56, Ne.symm m57, Ne.symm m58, Ne.symm m67, Ne.symm m68, Ne.symm m78]
        exact hfinal

/-! ## Concrete witness data -/

/-- A team literal used by the concrete witnesses. -/
def mkTeam (nm : String) (i : Nat) : Team := { name := nm, short_name := nm, id := i }

/-- Eight teams with distinct ids and distinct names. -/
def c9T : Tournament := Tournament.create_new
  [mkTeam "A" 1, mkTeam "B" 2, mkTeam "C" 3, mkTeam "D" 4,
   mkTeam "E" 5, mkTeam "F" 6, mkTeam "G" 7, mkTeam "H" 8]

/-- The outcome of the trial on c9T with the all-ones win-rate table. -/
def c9Out : SimulationOutcome :=
  { regular_season_rank := [("A", 1), ("B", 2), ("C", 3), ("D", 4), ("E", 5),
      ("F", 6), ("G", 7), ("H", 8)],
    made_playoffs := ["A", "B", "C", "D", "E", "F", "G", "H"],
    playoff_seed := [("A", 1), ("B", 2), ("C", 3), ("D", 4), ("E", 5), ("F", 6),
      ("G", 7), ("H", 8)],
    final_placement := [("A", 1), ("H", 2), ("B", 3), ("G", 4), ("E", 5), ("F", 6),
      ("D", 7), ("C", 8)],
    champion := some "A" }

/-- As c9T but the id-8 team shares the name of the id-1 team. -/
def c9cexT : Tournament := Tournament.create_new
  [mkTeam "A" 1, mkTeam "B" 2, mkTeam "C" 3, mkTeam "D" 4,
   mkTeam "E" 5, mkTeam "F" 6, mkTeam "G" 7, mkTeam "A" 8]

/-- The outcome of the trial on c9cexT with the all-ones win-rate table. -/
def c9cexOut : SimulationOutcome :=
  { regular_season_rank := [("A", 8), ("B", 2), ("C", 3), ("D", 4), ("E", 5),
      ("F", 6), ("G", 7)],
    made_playoffs := ["A", "B", "C", "D", "E", "F", "G"],
    playoff_seed := [("A", 8), ("B", 2), ("C", 3), ("D", 4), ("E", 5), ("F", 6),
      ("G", 7)],
    final_placement := [("A", 2), ("B", 3), ("G", 4), ("E", 5), ("F", 6), ("D", 7),
      ("C", 8)],
    champion := some "A" }

/-- C9 counterexample to the literal claim: a successful trial on a snapshot
where two playoff teams share a name. The bracket completes and has a
champion, yet final_placement holds only seven entries and no team at all
receives placement 1: the runner-up entry overwrote the champion entry
because final_placement is keyed by team name. -/
theorem c9_counterexample :
    run_single_simulation c9cexT (WinRateMatrix.uniform 1) 0 = .ok c9cexOut ∧
    c9cexOut.champion = some "A" ∧
    c9cexOut.final_placement.all (fun p => decide (p.2 ≠ 1)) = true ∧
    c9cexOut.final_placement.length = 7 :=
  ⟨rfl, by decide, by decide, by decide⟩

theorem c9_final_placement_witness :
    ((c9T.standings.values.map (fun st => st.team.id)).Nodup ∧
     (c9T.standings.values.map (fun st => st.team.name)).Nodup ∧
     8 ≤ c9T.standings.values.length ∧
     run_single_simulation c9T (WinRateMatrix.uniform 1) 0 = .ok c9Out) ∧
    (∃ c ru th fo e1 e2 e3 e4 : Team,
      c9Out.champion = some c.name ∧
      c9Out.final_placement = [(c.name, 1), (ru.name, 2), (th.name, 3), (fo.name, 4),
        (e1.name, 5), (e2.name, 6), (e3.name, 7), (e4.name, 8)] ∧
      (c9Out.final_placement.map Prod.fst).Nodup ∧
      List.Perm (c9Out.final_placement.map Prod.fst) (c9Out.playoff_seed.map Prod.fst)) :=
  ⟨⟨by decide, by decide, by decide, rfl⟩,
   c9_final_placement c9T (WinRateMatrix.uniform 1) 0 c9Out (by decide) (by decide)
     (by decide) rfl⟩

/-- The bracket produced by seeding the eight witness teams. -/
def c3B : PlayoffBracket :=
  (emptyBracket.seed_teams [mkTeam "A" 1, mkTeam "B" 2, mkTeam "C" 3, mkTeam "D" 4,
    mkTeam "E" 5, mkTeam "F" 6, mkTeam "G" 7, mkTeam "H" 8]).toOption.getD emptyBracket

theorem c3_always_team_a_champion_witness :
    ((([mkTeam "A" 1, mkTeam "B" 2, mkTeam "C" 3, mkTeam "D" 4, mkTeam "E" 5,
        mkTeam "F" 6, mkTeam "G" 7, mkTeam "H" 8] : List Team).map Team.id).Nodup ∧
     emptyBracket.seed_teams [mkTeam "A" 1, mkTeam "B" 2, mkTeam "C" 3, mkTeam "D" 4,
       mkTeam "E" 5, mkTeam "F" 6, mkTeam "G" 7, mkTeam "H" 8] = .ok c3B) ∧
    ((∀ p, ((simulate_playoffs (WinRateMatrix.uniform 1) c3B
        ⟨fun _ => 0, 0⟩).1.results p).isSome = true) ∧
     (simulate_playoffs (WinRateMatrix.uniform 1) c3B
        ⟨fun _ => 0, 0⟩).1.champion = some (mkTeam "A" 1) ∧
     (simulate_playoffs (WinRateMatrix.uniform 1) c3B
        ⟨fun _ => 0, 0⟩).1.is_complete = true) :=
  ⟨⟨by decide, rfl⟩,
   c3_always_team_a_champion (mkTeam "A" 1) (mkTeam "B" 2) (mkTeam "C" 3)
     (mkTeam "D" 4) (mkTeam "E" 5) (mkTeam "F" 6) (mkTeam "G" 7) (mkTeam "H" 8)
     ⟨fun _ => 0, 0⟩ c3B (by decide) rfl⟩

/-- The standings after one recorded result between the two witness teams. -/
def c7S : Standings :=
  (applyResults (mkStandings [mkTeam "P" 1, mkTeam "Q" 2])
    [(mkTeam "P" 1, mkTeam "Q" 2)]).toOption.getD { standings := [] }

theorem c7_standings_invariant_witness :
    (applyResults (mkStandings [mkTeam "P" 1, mkTeam "Q" 2])
        [(mkTeam "P" 1, mkTeam "Q" 2)] = .ok c7S) ∧
    (∀ st ∈ c7S.values, st.games_played = st.wins + st.losses ∧
      h2hSumW st.head_to_head = st.wins ∧ h2hSumL st.head_to_head = st.losses) :=
  ⟨rfl,
   c7_standings_invariant.1 [mkTeam "P" 1, mkTeam "Q" 2]
     [(mkTeam "P" 1, mkTeam "Q" 2)] c7S rfl⟩

end LecSim
